import Mathlib

/-!
Shallow embedding of the Captain Sonar server-side game state
(`src/game_state.py` and `src/maps.py`), turn-based mode.

Modelling notes:
* Python dicts/lists of the game state become Lean structures; mutation
  becomes explicit state passing (each entry point returns its result
  triple `(ok, error_msg, events)` together with the updated game).
* The engineering board dict (direction → list of node dicts) is split
  into its immutable layout (`nodeColor`, `nodeCircuit`, fixed by
  `ENGINEERING_LAYOUT`) and its only mutable field, the per-node
  `marked` flags, modelled as a function `Direction → Fin 6 → Bool`.
* Machine integers are `Int` (coordinates, health) or `Nat` (charges,
  indices); Python `//` floor division is `Int.fdiv`.
-/

namespace CaptainSonar

/-- The four cardinal directions (`"north" | "south" | "west" | "east"`). -/
inductive Direction where
  | north | south | west | east
deriving DecidableEq, Repr, Fintype

/-- Node colors on the engineering board. -/
inductive Color where
  | red | green | yellow | radiation
deriving DecidableEq, Repr

/-- The five chargeable systems. -/
inductive System where
  | torpedo | mine | sonar | drone | stealth
deriving DecidableEq, Repr, Fintype

/-- The two teams. -/
inductive Team where
  | blue | red
deriving DecidableEq, Repr, Fintype

/-- Game phases: `"placement" | "playing" | "ended"`. -/
inductive Phase where
  | placement | playing | ended
deriving DecidableEq, Repr

/-- `ENGINEERING_LAYOUT`: color of node `i` in section `d` (immutable). -/
def nodeColor (d : Direction) (i : Fin 6) : Color :=
  match d, i with
  | .west,  0 => .red
  | .west,  1 => .green
  | .west,  2 => .yellow
  | .west,  3 => .yellow
  | .west,  4 => .red
  | .west,  5 => .radiation
  | .north, 0 => .yellow
  | .north, 1 => .red
  | .north, 2 => .yellow
  | .north, 3 => .red
  | .north, 4 => .green
  | .north, 5 => .radiation
  | .south, 0 => .green
  | .south, 1 => .yellow
  | .south, 2 => .red
  | .south, 3 => .green
  | .south, 4 => .yellow
  | .south, 5 => .radiation
  | .east,  0 => .yellow
  | .east,  1 => .red
  | .east,  2 => .green
  | .east,  3 => .yellow
  | .east,  4 => .red
  | .east,  5 => .radiation

/-- `ENGINEERING_LAYOUT`: circuit id of node `i` in section `d` (immutable).
Indices 0-2 belong to circuits 1-3 respectively, per `CIRCUITS`. -/
def nodeCircuit (_d : Direction) (i : Fin 6) : Option Nat :=
  match i with
  | 0 => some 1
  | 1 => some 2
  | 2 => some 3
  | _ => none

/-- `CIRCUITS`: circuit id → its member nodes (one per direction). -/
def CIRCUITS (cid : Nat) : List (Direction × Fin 6) :=
  match cid with
  | 1 => [(.north, 0), (.south, 0), (.east, 0), (.west, 0)]
  | 2 => [(.north, 1), (.south, 1), (.east, 1), (.west, 1)]
  | 3 => [(.north, 2), (.south, 2), (.east, 2), (.west, 2)]
  | _ => []

/-- `RADIATION_NODES`: the four radiation node positions. -/
def RADIATION_NODES : List (Direction × Fin 6) :=
  [(.west, 5), (.north, 5), (.south, 5), (.east, 5)]

/-- `SYSTEM_COLORS`: node color that blocks each system when marked. -/
def SYSTEM_COLORS (s : System) : Color :=
  match s with
  | .torpedo => .red
  | .mine    => .red
  | .sonar   => .green
  | .drone   => .green
  | .stealth => .yellow

/-- `SYSTEM_MAX_CHARGE`. -/
def SYSTEM_MAX_CHARGE (s : System) : Nat :=
  match s with
  | .torpedo => 6
  | .mine    => 6
  | .sonar   => 6
  | .drone   => 6
  | .stealth => 4

/-- The mutable part of the engineering board: marked flags per node. -/
def Marks := Direction → Fin 6 → Bool

instance : DecidableEq Marks :=
  fun a b => Fintype.decidablePiFintype a b

/-- `make_engineering_board`: fresh board, nothing marked. -/
def make_engineering_board : Marks := fun _ _ => false

/-- Mark/unmark a single node (`board[direction][index]["marked"] = v`). -/
def setMark (b : Marks) (d : Direction) (i : Fin 6) (v : Bool) : Marks :=
  fun d' i' => if d' = d ∧ i' = i then v else b d' i'

/-- `clear_engineering_board`: clear ALL marked nodes on the entire board. -/
def clear_engineering_board (_b : Marks) : Marks := fun _ _ => false

/-- Events emitted by `engineer_mark_node`. -/
inductive EngEvent where
  | error (msg : String)
  | direction_damage (direction : Direction) (damage : Nat)
  | radiation_damage (damage : Nat)
  | circuit_cleared (circuit : Nat)
deriving DecidableEq, Repr

/-- `all(n["marked"] for n in board[direction])`. -/
def allDirectionMarked (b : Marks) (d : Direction) : Bool :=
  (List.finRange 6).all fun i => b d i

/-- `sum(1 for d, i in RADIATION_NODES if board[d][i]["marked"])`. -/
def total_radiation (b : Marks) : Nat :=
  (RADIATION_NODES.filter fun p => b p.1 p.2).length

/-- `for d, i in circuit_nodes: board[d][i]["marked"] = False`. -/
def clearCircuit (b : Marks) (cid : Nat) : Marks :=
  (CIRCUITS cid).foldl (fun acc p => setMark acc p.1 p.2 false) b

/-- `all(board[d][i]["marked"] for d, i in circuit_nodes)`. -/
def circuitComplete (b : Marks) (cid : Nat) : Bool :=
  (CIRCUITS cid).all fun p => b p.1 p.2

/-- `engineer_mark_node(board, direction, index)`: mark a node and apply,
in rulebook priority order, direction overload, radiation overload, and
circuit completion.  Returns the events list together with the new board. -/
def engineer_mark_node (b : Marks) (d : Direction) (i : Fin 6) :
    List EngEvent × Marks :=
  if b d i then ([.error "Node already marked"], b)
  else
    let b1 := setMark b d i true
    if allDirectionMarked b1 d then
      ([.direction_damage d 1], clear_engineering_board b1)
    else if total_radiation b1 ≥ RADIATION_NODES.length then
      ([.radiation_damage 1], clear_engineering_board b1)
    else
      match nodeCircuit d i with
      | some cid =>
          if circuitComplete b1 cid then
            ([.circuit_cleared cid], clearCircuit b1 cid)
          else ([], b1)
      | none => ([], b1)

/-- `get_available_nodes`: indices of unmarked nodes in a direction. -/
def get_available_nodes (b : Marks) (d : Direction) : List (Fin 6) :=
  (List.finRange 6).filter fun i => ¬ b d i

/-- `is_system_blocked(board, system)`: true iff any node of the color of the system is currently marked anywhere on the board. -/
def is_system_blocked (b : Marks) (s : System) : Bool :=
  (List.finRange 6).any (fun i => nodeColor .north i = SYSTEM_COLORS s ∧ b .north i) ||
  (List.finRange 6).any (fun i => nodeColor .south i = SYSTEM_COLORS s ∧ b .south i) ||
  (List.finRange 6).any (fun i => nodeColor .west i = SYSTEM_COLORS s ∧ b .west i) ||
  (List.finRange 6).any (fun i => nodeColor .east i = SYSTEM_COLORS s ∧ b .east i)

/-- Charge counters, one per system (`sub["systems"]`). -/
structure Systems where
  torpedo : Nat
  mine    : Nat
  sonar   : Nat
  drone   : Nat
  stealth : Nat
deriving DecidableEq, Repr

/-- Look up the charge of a system. -/
def Systems.get (s : Systems) (k : System) : Nat :=
  match k with
  | .torpedo => s.torpedo
  | .mine    => s.mine
  | .sonar   => s.sonar
  | .drone   => s.drone
  | .stealth => s.stealth

/-- Set the charge of a system. -/
def Systems.set (s : Systems) (k : System) (v : Nat) : Systems :=
  match k with
  | .torpedo => { s with torpedo := v }
  | .mine    => { s with mine := v }
  | .sonar   => { s with sonar := v }
  | .drone   => { s with drone := v }
  | .stealth => { s with stealth := v }

/-- Submarine state (`make_submarine`). -/
structure Submarine where
  team        : Team
  position    : Option (Int × Int)
  health      : Int
  trail       : List (Int × Int)
  mines       : List (Int × Int)
  systems     : Systems
  engineering : Marks
  surfaced    : Bool
deriving DecidableEq

/-- `make_submarine(team)`. -/
def make_submarine (team : Team) : Submarine :=
  { team := team, position := none, health := 4, trail := [], mines := [],
    systems := ⟨0, 0, 0, 0, 0⟩, engineering := make_engineering_board,
    surfaced := false }

/-- Python destructures `r, c = sub["position"]` unconditionally; every
entry point doing so runs in a phase where the position is already set,
so the `(0, 0)` default is unreachable there. -/
def posOf (s : Submarine) : Int × Int := s.position.getD (0, 0)

/-- Map definition (`maps.py`): grid size, sector size, obstacle cells. -/
structure MapDef where
  rows        : Int
  cols        : Int
  sector_size : Int
  islands     : List (Int × Int)
deriving DecidableEq, Repr

/-- `get_sector(row, col, sector_size, map_cols)` from `maps.py`:
1-indexed sector number; `math.ceil(map_cols / sector_size)` is the
number of sectors per row and Python `//` is floor division. -/
def get_sector (row col sector_size map_cols : Int) : Int :=
  let sectors_per_row := -((-map_cols).fdiv sector_size)
  let sr := row.fdiv sector_size
  let sc := col.fdiv sector_size
  sr * sectors_per_row + sc + 1

/-- The `waiting_for` values (`"sonar_response" | "drone_response"`). -/
inductive Waiting where
  | sonar_response | drone_response
deriving DecidableEq, Repr

/-- Per-turn state (`make_turn_state`).  The `sonar_query`/`drone_query`
slots are initialised to `None` and never written by any entry point in
`game_state.py`, so they are omitted here. -/
structure TurnState where
  moved             : Bool
  direction         : Option Direction
  stealth_direction : Option Direction
  engineer_done     : Bool
  first_mate_done   : Bool
  waiting_for       : Option Waiting
  system_used       : Bool
deriving DecidableEq, Repr

/-- `make_turn_state()`. -/
def make_turn_state : TurnState :=
  { moved := false, direction := none, stealth_direction := none,
    engineer_done := false, first_mate_done := false,
    waiting_for := none, system_used := false }

/-- Entries appended to `game["log"]`. -/
inductive LogEntry where
  | placed (team : Team) (row col : Int)
  | move (team : Team) (direction : Direction)
  | surface (team : Team) (sector : Int)
  | mine_destroyed_by_torpedo (team : Team) (row col : Int)
  | torpedo (team : Team) (row col : Int)
  | mine_placed (team : Team)
  | mine_detonated (team : Team) (row col : Int)
  | sonar (team : Team)
  | drone (team : Team)
  | stealth (team : Team) (steps : Int)
deriving DecidableEq, Repr

/-- Events returned by the entry points. -/
inductive Event where
  | moved (team : Team) (direction : Direction) (row col : Int)
  | surfaced (team : Team) (sector : Int) (health : Int)
  | engineering_damage (team : Team) (cause : String) (damage : Int)
      (health : Int) (direction : Option Direction)
  | circuit_cleared (team : Team) (circuit : Option Nat)
  | system_charged (team : Team) (system : System) (charge maxCharge : Nat)
      (ready : Bool)
  | torpedo_fired (team : Team) (row col : Int)
  | mine_placed (team : Team)
  | mine_detonated (team : Team) (row col : Int)
  | damage (team : Team) (amount : Int) (health : Int) (row col : Int)
  | game_over (winner : Team) (loser : Team)
  | sonar_activated (team : Team)
  | sonar_result (target : Team) (type1 : String) (val1 : Int)
      (type2 : String) (val2 : Int)
  | drone_used (team : Team) (ask_sector : Int)
  | drone_result (target : Team) (in_sector : Bool) (ask_sector : Int)
  | drone_announced (team : Team) (sector : Int)
  | stealth_used (team : Team) (steps : Int) (direction : Direction)
  | moved_private (team : Team) (row col : Int)
  | turn_end (team : Team)
  | turn_start (team : Team)
deriving DecidableEq, Repr

/-- Game state (`make_game`). -/
structure Game where
  map           : MapDef
  phase         : Phase
  turn_index    : Nat
  turn_order    : List Team
  active_team   : Team
  surface_bonus : Option (Team × Int)
  blue_sub      : Submarine
  red_sub       : Submarine
  turn_state    : TurnState
  log           : List LogEntry
  winner        : Option Team
deriving DecidableEq

/-- `make_game`.  Python takes a `map_key` into a `MAPS` table that is
absent from `src/maps.py` (only the generator is there); modelled from
the spec, the map definition is passed in directly. -/
def make_game (m : MapDef) : Game :=
  { map := m, phase := .placement, turn_index := 0,
    turn_order := [.blue, .red], active_team := .blue,
    surface_bonus := none,
    blue_sub := make_submarine .blue, red_sub := make_submarine .red,
    turn_state := make_turn_state, log := [], winner := none }

/-- `game["submarines"][team]`. -/
def getSub (g : Game) (t : Team) : Submarine :=
  match t with
  | .blue => g.blue_sub
  | .red  => g.red_sub

/-- Replace the submarine of a team. -/
def setSub (g : Game) (t : Team) (s : Submarine) : Game :=
  match t with
  | .blue => { g with blue_sub := s }
  | .red  => { g with red_sub := s }

/-- `current_team(game)`: the team whose turn it currently is. -/
def current_team (g : Game) : Team := g.active_team

/-- `other_team(team)`. -/
def other_team (t : Team) : Team :=
  match t with
  | .blue => .red
  | .red  => .blue

/-- `is_valid_position(game, row, col)`: in bounds and not an island. -/
def is_valid_position (g : Game) (row col : Int) : Bool :=
  if row < 0 || row ≥ g.map.rows then false
  else if col < 0 || col ≥ g.map.cols then false
  else if g.map.islands.contains (row, col) then false
  else true

/-- `direction_delta(direction)`. -/
def direction_delta (d : Direction) : Int × Int :=
  match d with
  | .north => (-1, 0)
  | .south => (1, 0)
  | .west  => (0, -1)
  | .east  => (0, 1)

/-- Render a direction the way Python formats it into messages. -/
def dirStr (d : Direction) : String :=
  match d with
  | .north => "north"
  | .south => "south"
  | .west  => "west"
  | .east  => "east"

/-- Render a system the way Python formats it into messages. -/
def sysStr (s : System) : String :=
  match s with
  | .torpedo => "torpedo"
  | .mine    => "mine"
  | .sonar   => "sonar"
  | .drone   => "drone"
  | .stealth => "stealth"

/-- The `(ok, error_msg, events)` result triple of an entry point,
together with the (possibly updated) game state that Python mutates in
place. -/
structure ActionResult where
  ok     : Bool
  msg    : Option String
  events : List Event
  game   : Game
deriving DecidableEq

/-- Failure result: Python returns `(False, msg, [])` without mutating. -/
def fail (g : Game) (msg : String) : ActionResult :=
  { ok := false, msg := some msg, events := [], game := g }

/-- `place_submarine(game, team, row, col)`. -/
def place_submarine (g : Game) (team : Team) (row col : Int) : ActionResult :=
  if g.phase ≠ .placement then fail g "Game not in placement phase"
  else
    let sub := getSub g team
    if sub.position.isSome then fail g "Already placed"
    else if ¬ is_valid_position g row col then fail g "Invalid position"
    else
      let sub' := { sub with position := some (row, col), trail := [(row, col)] }
      let g1 := setSub g team sub'
      let g2 := { g1 with log := g1.log ++ [.placed team row col] }
      let g3 :=
        if g2.blue_sub.position.isSome ∧ g2.red_sub.position.isSome then
          { g2 with phase := .playing }
        else g2
      { ok := true, msg := none, events := [], game := g3 }

/-- `captain_move(game, team, direction)`. -/
def captain_move (g : Game) (team : Team) (d : Direction) : ActionResult :=
  if g.phase ≠ .playing then fail g "Game not active"
  else if current_team g ≠ team then fail g "Not your turn"
  else if g.turn_state.moved then fail g "Already moved this turn"
  else if g.turn_state.waiting_for.isSome then fail g "Waiting for a response"
  else
    let sub := getSub g team
    if sub.surfaced then fail g "Submarine is surfaced – press DIVE first"
    else
      let (dr, dc) := direction_delta d
      let (r, c) := posOf sub
      let nr := r + dr
      let nc := c + dc
      if ¬ is_valid_position g nr nc then
        fail g "Invalid move (boundary or island)"
      else if sub.trail.contains (nr, nc) then
        fail g "Cannot revisit a cell (you\x27ve been there before)"
      else if sub.mines.contains (nr, nc) then
        fail g "Cannot move into own mine"
      else
        let sub' := { sub with position := some (nr, nc),
                               trail := sub.trail ++ [(nr, nc)] }
        let g1 := { g with
          turn_state := { g.turn_state with moved := true, direction := some d },
          log := g.log ++ [.move team d] }
        { ok := true, msg := none,
          events := [.moved team d nr nc], game := setSub g1 team sub' }

/-- `captain_surface(game, team)`: clear trail to the current cell, clear
the whole engineering board, set `surfaced`, grant the enemy a 3-turn
surface bonus; no HP cost. -/
def captain_surface (g : Game) (team : Team) : ActionResult :=
  if g.phase ≠ .playing then fail g "Game not active"
  else if current_team g ≠ team then fail g "Not your turn"
  else if g.turn_state.moved then fail g "Already acted this turn"
  else if g.turn_state.waiting_for.isSome then fail g "Waiting for a response"
  else
    let sub := getSub g team
    let (r, c) := posOf sub
    let sector := get_sector r c g.map.sector_size g.map.cols
    let sub' := { sub with trail := [(r, c)], surfaced := true,
                           engineering := clear_engineering_board sub.engineering }
    let enemy := other_team team
    let g1 := { g with surface_bonus := some (enemy, 3),
                       log := g.log ++ [LogEntry.surface team sector] }
    let g2 := { g1 with turn_state := { g1.turn_state with
                  moved := true, direction := none,
                  engineer_done := true, first_mate_done := true } }
    { ok := true, msg := none,
      events := [.surfaced team sector sub.health], game := setSub g2 team sub' }

/-- `captain_dive(game, team)`. -/
def captain_dive (g : Game) (team : Team) : ActionResult :=
  if current_team g ≠ team then fail g "Not your turn"
  else
    let sub := getSub g team
    if ¬ sub.surfaced then fail g "Not surfaced"
    else
      { ok := true, msg := none, events := [],
        game := setSub g team { sub with surfaced := false } }

/-- `_check_game_over(game)`: first submarine (blue checked first, as in
Python dict order) with health ≤ 0 ends the game and crowns the other
team.  Returns the updated game and the optional `game_over` event. -/
def check_game_over (g : Game) : Game × Option Event :=
  if g.blue_sub.health ≤ 0 then
    ({ g with phase := .ended, winner := some .red }, some (.game_over .red .blue))
  else if g.red_sub.health ≤ 0 then
    ({ g with phase := .ended, winner := some .blue }, some (.game_over .blue .red))
  else (g, none)

/-- The event-translation loop in `engineer_mark`: fold the raw board
events, applying damage to `health` and producing the outgoing events;
returns `(out_events, new_health, total_damage)`. -/
def engApplyEvents (team : Team) (evs : List EngEvent) (health0 : Int) :
    List Event × Int × Int :=
  evs.foldl
    (fun acc ev =>
      let (outs, h, tot) := acc
      match ev with
      | .direction_damage d dmg =>
          (outs ++ [.engineering_damage team "direction_damage" dmg
                      (h - dmg) (some d)], h - dmg, tot + dmg)
      | .radiation_damage dmg =>
          (outs ++ [.engineering_damage team "radiation_damage" dmg
                      (h - dmg) none], h - dmg, tot + dmg)
      | .circuit_cleared cid =>
          (outs ++ [.circuit_cleared team (some cid)], h, tot)
      | .error _ =>
          (outs ++ [.circuit_cleared team none], h, tot))
    ([], health0, 0)

/-- Result of `engineer_mark`: the Python 4-tuple plus the new game. -/
structure MarkResult where
  ok     : Bool
  msg    : Option String
  events : List Event
  damage : Int
  game   : Game
deriving DecidableEq

/-- Failure result for `engineer_mark`. -/
def failMark (g : Game) (msg : String) : MarkResult :=
  { ok := false, msg := some msg, events := [], damage := 0, game := g }

/-- The effect part of `engineer_mark` once every check passed: mark the
node, translate the board events into damage, and run the game-over
check. -/
def engineer_mark_apply (g : Game) (team : Team) (d : Direction) (i : Fin 6) :
    MarkResult :=
  let sub := getSub g team
  let (eng_events, board') := engineer_mark_node sub.engineering d i
  let (out_events, new_health, total_damage) :=
    engApplyEvents team eng_events sub.health
  let g1 := { g with turn_state := { g.turn_state with engineer_done := true } }
  let g2 := setSub g1 team
    { sub with engineering := board', health := new_health }
  let (g3, over) := check_game_over g2
  { ok := true, msg := none,
    events := out_events ++ over.toList,
    damage := total_damage, game := g3 }

/-- `engineer_mark(game, team, direction, index)`. -/
def engineer_mark (g : Game) (team : Team) (d : Direction) (i : Fin 6) :
    MarkResult :=
  if current_team g ≠ team then failMark g "Not your turn"
  else if ¬ g.turn_state.moved then failMark g "Captain hasn\x27t moved yet"
  else
    let ts := g.turn_state
    let effective_dir := match ts.direction with
      | some dd => some dd
      | none => ts.stealth_direction
    match effective_dir with
    | none => failMark g "No direction to mark (submarine surfaced)"
    | some ed =>
      if ts.engineer_done then failMark g "Already marked this turn"
      else if d ≠ ed then
        failMark g ("Must mark in the " ++ dirStr ed ++ " section")
      else
        let sub := getSub g team
        if sub.engineering d i then failMark g "Node already marked"
        else engineer_mark_apply g team d i

/-- `first_mate_charge(game, team, system)`. -/
def first_mate_charge (g : Game) (team : Team) (system : System) : ActionResult :=
  if current_team g ≠ team then fail g "Not your turn"
  else if ¬ g.turn_state.moved then fail g "Captain hasn\x27t moved yet"
  else
    let ts := g.turn_state
    let effective_dir := match ts.direction with
      | some dd => some dd
      | none => ts.stealth_direction
    match effective_dir with
    | none => fail g "No charging when surfacing"
    | some _ =>
      if ts.first_mate_done then fail g "Already charged this turn"
      else
        -- the Python `system not in SYSTEM_MAX_CHARGE` check is subsumed
        -- by the `System` type.
        let sub := getSub g team
        let max_c := SYSTEM_MAX_CHARGE system
        let current := sub.systems.get system
        if current ≥ max_c then
          fail g (sysStr system ++ " already fully charged")
        else
          let new_val := current + 1
          let sub' := { sub with systems := sub.systems.set system new_val }
          let g1 := { g with turn_state := { g.turn_state with first_mate_done := true } }
          { ok := true, msg := none,
            events := [.system_charged team system new_val max_c (new_val ≥ max_c)],
            game := setSub g1 team sub' }

/-- `_check_charge(sub, system)`. -/
def check_charge (sub : Submarine) (s : System) : Bool :=
  sub.systems.get s ≥ SYSTEM_MAX_CHARGE s

/-- `_use_system(sub, system)`: reset the charge to 0. -/
def use_system (sub : Submarine) (s : System) : Submarine :=
  { sub with systems := sub.systems.set s 0 }

/-- `has_valid_move(game, team)`: some cardinal neighbour is legal. -/
def has_valid_move (g : Game) (team : Team) : Bool :=
  let sub := getSub g team
  let (r, c) := posOf sub
  [Direction.north, .south, .east, .west].any fun d =>
    let (dr, dc) := direction_delta d
    let nr := r + dr
    let nc := c + dc
    is_valid_position g nr nc && ¬ sub.trail.contains (nr, nc)
      && ¬ sub.mines.contains (nr, nc)

/-- The loop body of `_apply_explosion(game, firing_team, ...)`: stop as
soon as the phase is `ended` (Python `break` — a prior damage in this
same explosion ended the game; the phase is monotone so skipping each
later team is equivalent); skip unplaced submarines; 2 damage at
Chebyshev distance 0, 1 at distance 1, none beyond; run the game-over
check after each damage. -/
def explosion_step (tr tc : Int) (acc : Game × List Event) (team : Team) :
    Game × List Event :=
  let (g, evs) := acc
  if g.phase = .ended then acc
  else
    match (getSub g team).position with
    | none => acc
    | some (r, c) =>
      let dist := max (tr - r).natAbs (tc - c).natAbs
      if dist = 0 ∨ dist = 1 then
        let dmg : Int := if dist = 0 then 2 else 1
        let sub := getSub g team
        let g1 := setSub g team { sub with health := sub.health - dmg }
        let evs1 := evs ++ [.damage team dmg (sub.health - dmg) tr tc]
        let (g2, over) := check_game_over g1
        (g2, evs1 ++ over.toList)
      else acc

/-- The submarine iteration of `_apply_explosion` (dict order: blue then
red), starting from the game and an empty event list. -/
def apply_explosion (g : Game) (_firing_team : Team) (tr tc : Int) :
    Game × List Event :=
  [Team.blue, Team.red].foldl (explosion_step tr tc) (g, [])

/-- The mine-destruction pass of the torpedo for the submarine of one team:
remove any mine at the impact cell and log it. -/
def destroyMinesAt (g : Game) (team : Team) (tr tc : Int) : Game :=
  let s := getSub g team
  let mines' := s.mines.filter (· ≠ (tr, tc))
  let g1 := setSub g team { s with mines := mines' }
  if mines'.length < s.mines.length then
    { g1 with log := g1.log ++ [.mine_destroyed_by_torpedo team tr tc] }
  else g1

/-- The effect part of `captain_fire_torpedo` once every check passed:
spend the charge, flag the system use, destroy mines at the impact cell,
apply the explosion, and log. -/
def fire_torpedo_apply (g : Game) (team : Team) (tr tc : Int) : ActionResult :=
  let sub := getSub g team
  let g1 := { g with turn_state := { g.turn_state with system_used := true } }
  let g2 := setSub g1 team (use_system sub .torpedo)
  let g3 := destroyMinesAt (destroyMinesAt g2 .blue tr tc) .red tr tc
  let (g4, boom) := apply_explosion g3 team tr tc
  let g5 := { g4 with log := g4.log ++ [.torpedo team tr tc] }
  { ok := true, msg := none,
    events := [.torpedo_fired team tr tc] ++ boom, game := g5 }

/-- `captain_fire_torpedo(game, team, target_row, target_col)`. -/
def captain_fire_torpedo (g : Game) (team : Team) (tr tc : Int) : ActionResult :=
  if current_team g ≠ team then fail g "Not your turn"
  else if g.phase ≠ .playing then fail g "Game not active"
  else if ¬ g.turn_state.moved then
    fail g "Must announce a course before firing torpedo"
  else if g.turn_state.system_used then fail g "Already used a system this turn"
  else if ¬ is_valid_position g tr tc then fail g "Invalid target"
  else
    let sub := getSub g team
    let (r, c) := posOf sub
    let dist := (tr - r).natAbs + (tc - c).natAbs
    if dist > 4 ∨ dist = 0 then
      fail g "Torpedo range: 1–4 spaces (Manhattan distance)"
    else if ¬ check_charge sub .torpedo then
      fail g "Torpedo not fully charged yet"
    else if is_system_blocked sub.engineering .torpedo then
      fail g "Torpedo blocked by engineer breakdown (red node marked)"
    else fire_torpedo_apply g team tr tc

/-- `captain_place_mine(game, team, target_row, target_col)`. -/
def captain_place_mine (g : Game) (team : Team) (tr tc : Int) : ActionResult :=
  if current_team g ≠ team then fail g "Not your turn"
  else if ¬ g.turn_state.moved then
    fail g "Must announce a course before placing a mine"
  else if g.turn_state.system_used then fail g "Already used a system this turn"
  else if ¬ is_valid_position g tr tc then fail g "Invalid target"
  else
    let sub := getSub g team
    let (r, c) := posOf sub
    let manhattan_dist := (tr - r).natAbs + (tc - c).natAbs
    if manhattan_dist ≠ 1 then
      fail g "Mine must be placed in a cardinally adjacent cell (N/S/E/W only)"
    else if sub.trail.contains (tr, tc) then
      fail g "Cannot place mine on a cell already in your route"
    else if ¬ check_charge sub .mine then
      fail g "Mine system not fully charged yet"
    else if is_system_blocked sub.engineering .mine then
      fail g "Mine system blocked by engineer breakdown (red node marked)"
    else
      let sub1 := use_system sub .mine
      let sub2 := { sub1 with mines := sub1.mines ++ [(tr, tc)] }
      let g1 := { g with
        turn_state := { g.turn_state with system_used := true },
        log := g.log ++ [.mine_placed team] }
      { ok := true, msg := none, events := [.mine_placed team],
        game := setSub g1 team sub2 }

/-- The effect part of `captain_detonate_mine` once every check passed:
pop the mine and apply the explosion at its cell. -/
def detonate_mine_apply (g : Game) (team : Team) (mine_index : Int) :
    ActionResult :=
  let sub := getSub g team
  let mine := sub.mines.getD mine_index.toNat (0, 0)
  let sub' := { sub with mines := sub.mines.eraseIdx mine_index.toNat }
  let g1 := setSub g team sub'
  let (g2, boom) := apply_explosion g1 team mine.1 mine.2
  let g3 := { g2 with log := g2.log ++ [.mine_detonated team mine.1 mine.2] }
  { ok := true, msg := none,
    events := [.mine_detonated team mine.1 mine.2] ++ boom, game := g3 }

/-- `captain_detonate_mine(game, team, mine_index)`. -/
def captain_detonate_mine (g : Game) (team : Team) (mine_index : Int) :
    ActionResult :=
  if g.phase ≠ .playing then fail g "Game not active"
  else if current_team g ≠ team then fail g "Not your turn"
  else if g.turn_state.waiting_for.isSome then
    fail g "Cannot detonate mine while waiting for a response"
  else
    let sub := getSub g team
    if sub.surfaced then fail g "Cannot trigger a mine while surfaced"
    else if mine_index < 0 ∨ mine_index ≥ (sub.mines.length : Int) then
      fail g "Invalid mine index"
    else detonate_mine_apply g team mine_index

/-- `captain_use_sonar(game, team)`. -/
def captain_use_sonar (g : Game) (team : Team) : ActionResult :=
  if current_team g ≠ team then fail g "Not your turn"
  else if ¬ g.turn_state.moved then
    fail g "Must announce a course before activating sonar"
  else if g.turn_state.system_used then fail g "Already used a system this turn"
  else
    let sub := getSub g team
    if ¬ check_charge sub .sonar then fail g "Sonar not charged"
    else if is_system_blocked sub.engineering .sonar then
      fail g "Sonar blocked by engineer breakdown (green nodes marked)"
    else
      let g1 := { g with
        turn_state := { g.turn_state with
          system_used := true, waiting_for := some .sonar_response },
        log := g.log ++ [.sonar team] }
      { ok := true, msg := none, events := [.sonar_activated team],
        game := setSub g1 team (use_system sub .sonar) }

/-- The inner `is_true(t, v)` of `captain_respond_sonar`: evaluate a
claim against the actual position and sector of the responding team. -/
def sonar_claim_true (g : Game) (responding_team : Team) (t : String) (v : Int) :
    Bool :=
  let enemy_sub := getSub g responding_team
  let (er, ec) := posOf enemy_sub
  let actual_sector := get_sector er ec g.map.sector_size g.map.cols
  if t = "row" then er = v
  else if t = "col" then ec = v
  else if t = "sector" then actual_sector = v
  else false

/-- `captain_respond_sonar(game, responding_team, type1, val1, type2, val2)`. -/
def captain_respond_sonar (g : Game) (responding_team : Team)
    (type1 : String) (val1 : Int) (type2 : String) (val2 : Int) : ActionResult :=
  let activating_team := other_team responding_team
  if g.turn_state.waiting_for ≠ some .sonar_response then
    fail g "No sonar query is pending"
  else if current_team g ≠ activating_team then
    fail g "Sonar query is not active"
  else if ¬ (["row", "col", "sector"].contains type1
             ∧ ["row", "col", "sector"].contains type2) then
    fail g "Invalid type (must be \x27row\x27, \x27col\x27, or \x27sector\x27)"
  else if type1 = type2 then
    fail g "Both pieces of info must be different types (e.g. one row and one sector)"
  else
    let truth1 := sonar_claim_true g responding_team type1 val1
    let truth2 := sonar_claim_true g responding_team type2 val2
    if truth1 ∧ truth2 then
      fail g "Both pieces of information are true — exactly 1 must be true and 1 false"
    else if ¬ truth1 ∧ ¬ truth2 then
      fail g "Both pieces of information are false — exactly 1 must be true and 1 false"
    else
      let g1 := { g with turn_state := { g.turn_state with waiting_for := none } }
      { ok := true, msg := none,
        events := [.sonar_result activating_team type1 val1 type2 val2],
        game := g1 }

/-- `captain_use_drone(game, team, ask_sector)`. -/
def captain_use_drone (g : Game) (team : Team) (ask_sector : Int) : ActionResult :=
  if current_team g ≠ team then fail g "Not your turn"
  else if ¬ g.turn_state.moved then
    fail g "Must announce a course before launching drone"
  else if g.turn_state.system_used then fail g "Already used a system this turn"
  else
    let sub := getSub g team
    if ¬ check_charge sub .drone then fail g "Drone not charged"
    else if is_system_blocked sub.engineering .drone then
      fail g "Drone blocked by engineer breakdown (green nodes marked)"
    else
      let enemy_sub := getSub g (other_team team)
      let (er, ec) := posOf enemy_sub
      let actual_sector := get_sector er ec g.map.sector_size g.map.cols
      let in_sector := actual_sector = ask_sector
      let g1 := { g with
        turn_state := { g.turn_state with system_used := true },
        log := g.log ++ [.drone team] }
      { ok := true, msg := none,
        events := [.drone_used team ask_sector,
                   .drone_result team in_sector ask_sector,
                   .drone_announced team ask_sector],
        game := setSub g1 team (use_system sub .drone) }

/-- The stealth path-validation loop: walk `n` cells from `(r, c)` in
direction `(dr, dc)`, extending the visited set, and return the list of
path cells or the first failure message.  Mirrors the Python loop, which
touches only local variables, so a mid-path failure mutates nothing. -/
def stealth_path (g : Game) (visited mines : List (Int × Int))
    (r c dr dc : Int) : Nat → Except String (List (Int × Int))
  | 0 => .ok []
  | n + 1 =>
      let r' := r + dr
      let c' := c + dc
      if ¬ is_valid_position g r' c' then
        .error "Invalid move during stealth (boundary or island)"
      else if visited.contains (r', c') then
        .error "Cannot revisit a cell during stealth"
      else if mines.contains (r', c') then
        .error "Cannot move into own mine during stealth"
      else
        match stealth_path g ((r', c') :: visited) mines r' c' dr dc n with
        | .ok rest => .ok ((r', c') :: rest)
        | .error e => .error e

/-- The effect part of `captain_use_stealth` for a validated `path`:
spend the charge, walk the path (extending trail and position), record
the private stealth direction, leaving the public one hidden. -/
def stealth_apply (g : Game) (team : Team) (d : Direction) (steps : Int)
    (path : List (Int × Int)) : ActionResult :=
  let sub := getSub g team
  let sub1 := use_system sub .stealth
  let sub2 := { sub1 with
    position := match path.getLast? with
      | some p => some p
      | none => sub1.position,
    trail := sub1.trail ++ path }
  let g1 := { g with
    turn_state := { g.turn_state with
      system_used := true, moved := true,
      direction := none, stealth_direction := some d },
    log := g.log ++ [.stealth team steps] }
  let (pr, pc) := posOf sub2
  { ok := true, msg := none,
    events := [.stealth_used team steps d, .moved_private team pr pc],
    game := setSub g1 team sub2 }

/-- `captain_use_stealth(game, team, direction, steps)`.  The Python
`direction not in (...)` check is subsumed by the `Direction` type and
`isinstance(steps, int)` by the `Int` type. -/
def captain_use_stealth (g : Game) (team : Team) (d : Direction) (steps : Int) :
    ActionResult :=
  if current_team g ≠ team then fail g "Not your turn"
  else if g.turn_state.moved then fail g "Already moved this turn"
  else if g.turn_state.system_used then fail g "Already used a system this turn"
  else if steps < 0 ∨ steps > 4 then fail g "Stealth: steps must be 0–4"
  else
    let sub := getSub g team
    if ¬ check_charge sub .stealth then
      fail g "Stealth (Silence) system not fully charged yet"
    else if is_system_blocked sub.engineering .stealth then
      fail g "Stealth blocked by engineer breakdown (yellow node marked)"
    else
      let (r, c) := posOf sub
      let (dr, dc) := direction_delta d
      match stealth_path g sub.trail sub.mines r c dr dc steps.toNat with
      | .error e => fail g e
      | .ok path => stealth_apply g team d steps path

/-- `can_end_turn(game, team)`: the `(ok, error_msg)` pair. -/
def can_end_turn (g : Game) (team : Team) : Bool × Option String :=
  let ts := g.turn_state
  if current_team g ≠ team then (false, some "Not your turn")
  else if ¬ ts.moved then (false, some "Must move or surface before ending turn")
  else if ts.waiting_for.isSome then (false, some "Waiting for a response")
  else
    let has_direction := ts.direction.isSome || ts.stealth_direction.isSome
    if has_direction then
      if ¬ ts.engineer_done then
        (false, some "Waiting for engineer to mark a node")
      else if ¬ ts.first_mate_done then
        let sub := getSub g team
        let all_full := [System.torpedo, .mine, .sonar, .drone, .stealth].all
          fun s => sub.systems.get s ≥ SYSTEM_MAX_CHARGE s
        if ¬ all_full then
          (false, some "Waiting for first mate to charge a system")
        else (true, none)
      else (true, none)
    else (true, none)

/-- `end_turn(game, team)`: advance the turn, consuming a surface-bonus
turn when one is active. -/
def end_turn (g : Game) (team : Team) : ActionResult :=
  let (ok, msg) := can_end_turn g team
  if ¬ ok then fail g (msg.getD "")
  else
    let g1 := { g with turn_index := g.turn_index + 1 }
    let g2 :=
      match g1.surface_bonus with
      | some (ft, n) =>
          if ft = team then
            let n' := n - 1
            if n' ≤ 0 then
              { g1 with surface_bonus := none, active_team := other_team team }
            else { g1 with surface_bonus := some (ft, n') }
          else { g1 with active_team := ft }
      | none => { g1 with active_team := other_team team }
    let g3 := { g2 with turn_state := make_turn_state }
    { ok := true, msg := none,
      events := [.turn_end team, .turn_start g3.active_team], game := g3 }

/-! ### Derived quantities used by the theorem statements -/

/-- Blast damage of an explosion at `(tr, tc)` for a submarine at `p`:
2 at Chebyshev distance 0, 1 at distance 1, 0 beyond. -/
def chebDamage (p : Int × Int) (tr tc : Int) : Int :=
  let dist := max (tr - p.1).natAbs (tc - p.2).natAbs
  if dist = 0 then 2 else if dist = 1 then 1 else 0

/-- Set the `surfaced` flag of one team, leaving everything else alone. -/
def setSurfaced (g : Game) (t : Team) (b : Bool) : Game :=
  setSub g t { getSub g t with surfaced := b }

/-- Manhattan distance from a submarine position to a target cell, as
computed by the torpedo range check. -/
def manhattanDist (p : Int × Int) (tr tc : Int) : Nat :=
  (tr - p.1).natAbs + (tc - p.2).natAbs

/-- Destination cell of a (possible) captain move. -/
def moveDest (g : Game) (team : Team) (d : Direction) : Int × Int :=
  ((posOf (getSub g team)).1 + (direction_delta d).1,
   (posOf (getSub g team)).2 + (direction_delta d).2)

/-! ### Concrete states for witnesses and counterexamples -/

/-- A 15×15 open map with 5-wide sectors (spec §3 map data model). -/
def mapTest : MapDef := { rows := 15, cols := 15, sector_size := 5, islands := [] }

/-- A freshly started playing-phase game with both submarines placed. -/
def mkPlayingGame (bp rp : Int × Int) : Game :=
  { make_game mapTest with
      phase := .playing,
      blue_sub := { make_submarine .blue with position := some bp, trail := [bp] },
      red_sub := { make_submarine .red with position := some rp, trail := [rp] } }

/-- Board with north 0-4 marked: marking north 5 completes the section. -/
def bOverload : Marks := fun d i =>
  [(Direction.north, (0 : Fin 6)), (.north, 1), (.north, 2), (.north, 3),
   (.north, 4)].contains (d, i)

/-- Board where marking (north, 0) completes the north section, circuit 1
and the radiation set all at once — direction overload must win. -/
def bTriple : Marks := fun d i =>
  [(Direction.north, (1 : Fin 6)), (.north, 2), (.north, 3), (.north, 4),
   (.north, 5), (.south, 0), (.east, 0), (.west, 0), (.south, 5), (.east, 5),
   (.west, 5)].contains (d, i)

/-- Pre-state for the C1 counterexample: blue on 1 health, mid-turn after
a north move, north section one node short of overload, mine fully
charged.  Marking (north, 5) overloads, drops blue to 0 health and ends
the game — with `moved` still true and `system_used` still false. -/
def gC1 : Game :=
  let base := mkPlayingGame (5, 5) (10, 10)
  { base with
      turn_state := { make_turn_state with moved := true, direction := some .north },
      blue_sub := { base.blue_sub with
        health := 1,
        systems := { (make_submarine .blue).systems with mine := 6 },
        engineering := bOverload } }

/-- The ended game reached from `gC1` by the overloading mark. -/
def gC1ended : Game := (engineer_mark gC1 .blue .north 5).game

/-- Playing game, captain not yet moved, stealth fully charged. -/
def gC2 : Game :=
  let base := mkPlayingGame (5, 5) (10, 10)
  { base with
      blue_sub := { base.blue_sub with
        systems := { (make_submarine .blue).systems with stealth := 4 } } }

/-- Turn states for the C2 amended witness: nothing moved but a system
already used, and moved with no system used. -/
def gC2a : Game :=
  { gC2 with turn_state := { make_turn_state with system_used := true } }

/-- Turn state with `moved` set and `system_used` clear. -/
def gC2b : Game :=
  { gC2 with turn_state := { make_turn_state with
      moved := true,
      direction := some .east } }

/-- Pre-state for the C4 counterexample: blue (1 health) fires a torpedo
at the cell occupied by red; blue is at Chebyshev distance 1 of the
blast, dies first, and the explosion loop stops before reaching red. -/
def gC4 : Game :=
  let base := mkPlayingGame (5, 5) (5, 6)
  { base with
      turn_state := { make_turn_state with moved := true, direction := some .east },
      blue_sub := { base.blue_sub with
        health := 1,
        systems := { (make_submarine .blue).systems with torpedo := 6 } } }

/-- Playing game: blue has stealth charged and an own mine two cells to
the east, so a 3-step eastward stealth fails mid-path. -/
def gC9 : Game :=
  let base := mkPlayingGame (5, 5) (10, 10)
  { base with
      blue_sub := { base.blue_sub with
        systems := { (make_submarine .blue).systems with stealth := 4 },
        mines := [(5, 7)] } }

/-- A game waiting on a sonar response from red (blue activated sonar). -/
def gC5 : Game :=
  let base := mkPlayingGame (2, 2) (5, 9)
  { base with
      turn_state := { make_turn_state with
        moved := true,
        direction := some .east, system_used := true,
        waiting_for := some .sonar_response } }

/-- A finished turn (moved, marked, charged) ready for `end_turn`. -/
def gC6 : Game :=
  let base := mkPlayingGame (5, 5) (10, 10)
  { base with
      turn_state := { make_turn_state with
        moved := true,
        direction := some .east, engineer_done := true,
        first_mate_done := true } }

/-! ### A full replay from `make_game` for the C10 reachability part -/

/-- One complete normal turn: move, mark in the moved direction, charge,
end turn. -/
def doTurn (g : Game) (team : Team) (d : Direction) (i : Fin 6)
    (sys : System) : Game :=
  let g1 := (captain_move g team d).game
  let g2 := (engineer_mark g1 team d i).game
  let g3 := (first_mate_charge g2 team sys).game
  (end_turn g3 team).game

/-- One blue turn followed by one red turn, both with course `p.1` and
engineering mark `p.2`, both charging the torpedo. -/
def playRound (g : Game) (p : Direction × Fin 6) : Game :=
  doTurn (doTurn g .blue p.1 p.2 .torpedo) .red p.1 p.2 .torpedo

/-- Six rounds of courses and marks that never trip a breakdown:
snake east-east-east-south-west-west, marking non-circuit-completing,
non-radiation nodes. -/
def replayRounds : List (Direction × Fin 6) :=
  [(.east, 3), (.east, 4), (.east, 0), (.south, 3), (.west, 3), (.west, 4)]

/-- The game after placement and six full rounds: blue to act, torpedo
fully charged on both sides. -/
def gPlayed : Game :=
  let g0 := make_game mapTest
  let g1 := (place_submarine g0 .blue 5 5).game
  let g2 := (place_submarine g1 .red 10 10).game
  replayRounds.foldl playRound g2

/-- Blue surfaces: reachable state in which blue is surfaced with a
fully charged torpedo and `moved` already true. -/
def gSurf : Game := (captain_surface gPlayed .blue).game

/-! ### Helper lemmas -/

theorem fail_ok (g : Game) (m : String) : (fail g m).ok = false := rfl

theorem fail_msg (g : Game) (m : String) : (fail g m).msg = some m := rfl

theorem fail_game (g : Game) (m : String) : (fail g m).game = g := rfl

theorem getSub_setSub_self (g : Game) (t : Team) (s : Submarine) :
    getSub (setSub g t s) t = s := by
  cases t <;> rfl

theorem getSub_setSub_other (g : Game) (t t' : Team) (s : Submarine)
    (h : t' ≠ t) : getSub (setSub g t s) t' = getSub g t' := by
  cases t <;> cases t' <;> first | rfl | exact absurd rfl h

theorem setSub_phase (g : Game) (t : Team) (s : Submarine) :
    (setSub g t s).phase = g.phase := by cases t <;> rfl

theorem setSub_map (g : Game) (t : Team) (s : Submarine) :
    (setSub g t s).map = g.map := by cases t <;> rfl

theorem setSub_active (g : Game) (t : Team) (s : Submarine) :
    (setSub g t s).active_team = g.active_team := by cases t <;> rfl

theorem setSub_turn_state (g : Game) (t : Team) (s : Submarine) :
    (setSub g t s).turn_state = g.turn_state := by cases t <;> rfl

theorem setSub_bonus (g : Game) (t : Team) (s : Submarine) :
    (setSub g t s).surface_bonus = g.surface_bonus := by cases t <;> rfl

theorem setSub_log (g : Game) (t : Team) (s : Submarine) :
    (setSub g t s).log = g.log := by cases t <;> rfl

/-! ### C8 — legal captain moves -/

/-- C8: a successful `captain_move` lands on an in-bounds, non-obstacle
cell that is neither in the pre-move trail nor on an own mine; the cell
is appended to the trail (which grows by exactly one), becomes the new
position, and `moved` and `direction` are set. -/
theorem C8_captain_move_legal (g : Game) (team : Team) (d : Direction)
    (h : (captain_move g team d).ok = true) :
    is_valid_position g (moveDest g team d).1 (moveDest g team d).2 = true ∧
    (getSub g team).trail.contains (moveDest g team d) = false ∧
    (getSub g team).mines.contains (moveDest g team d) = false ∧
    (getSub (captain_move g team d).game team).trail
      = (getSub g team).trail ++ [moveDest g team d] ∧
    (getSub (captain_move g team d).game team).trail.length
      = (getSub g team).trail.length + 1 ∧
    (getSub (captain_move g team d).game team).position
      = some (moveDest g team d) ∧
    (captain_move g team d).game.turn_state.moved = true ∧
    (captain_move g team d).game.turn_state.direction = some d := by
  simp only [captain_move, moveDest] at h ⊢
  split_ifs at h ⊢ with h1 h2 h3 h4 h5 h6 h7 h8 <;>
    try exact Bool.noConfusion h
  refine ⟨by simpa using h6, by simpa using h7, by simpa using h8,
          ?_, ?_, ?_, ?_, ?_⟩
  · dsimp only
    rw [getSub_setSub_self]
  · dsimp only
    rw [getSub_setSub_self]
    simp
  · dsimp only
    rw [getSub_setSub_self]
  · dsimp only
    rw [setSub_turn_state]
  · dsimp only
    rw [setSub_turn_state]

/-- C8 witness: a concrete successful eastward move. -/
theorem C8_captain_move_legal_witness :
    (captain_move (mkPlayingGame (5, 5) (10, 10)) .blue .east).ok = true ∧
    (getSub (captain_move (mkPlayingGame (5, 5) (10, 10)) .blue .east).game
        .blue).trail = [(5, 5), (5, 6)] :=
  ⟨by decide,
   (C8_captain_move_legal (mkPlayingGame (5, 5) (10, 10)) .blue .east
      (by decide)).2.2.2.1.trans (by decide)⟩

/-! ### C7 — surfacing effects -/

theorem other_team_ne (t : Team) : other_team t ≠ t := by
  cases t <;> simp [other_team]

/-- C7: a successful `captain_surface` resets the trail to exactly the
single current cell, clears every node of the engineering board, sets
`surfaced`, and grants the other team a 3-turn `surface_bonus`, while
leaving health, position, mines and system charges (and the other
team submarine) unchanged — no damage is inflicted. -/
theorem C7_captain_surface_effects (g : Game) (team : Team)
    (h : (captain_surface g team).ok = true) :
    (getSub (captain_surface g team).game team).trail
      = [posOf (getSub g team)] ∧
    (∀ d i, (getSub (captain_surface g team).game team).engineering d i
      = false) ∧
    (getSub (captain_surface g team).game team).surfaced = true ∧
    (captain_surface g team).game.surface_bonus
      = some (other_team team, 3) ∧
    (getSub (captain_surface g team).game team).health
      = (getSub g team).health ∧
    (getSub (captain_surface g team).game team).position
      = (getSub g team).position ∧
    (getSub (captain_surface g team).game team).mines
      = (getSub g team).mines ∧
    (getSub (captain_surface g team).game team).systems
      = (getSub g team).systems ∧
    getSub (captain_surface g team).game (other_team team)
      = getSub g (other_team team) := by
  simp only [captain_surface] at h ⊢
  split_ifs at h ⊢ with h1 h2 h3 h4 <;> try exact Bool.noConfusion h
  refine ⟨?_, ?_, ?_, ?_, ?_, ?_, ?_, ?_, ?_⟩
  · dsimp only
    rw [getSub_setSub_self]
  · intro d i
    dsimp only
    rw [getSub_setSub_self]
    rfl
  · dsimp only
    rw [getSub_setSub_self]
  · dsimp only
    rw [setSub_bonus]
  · dsimp only
    rw [getSub_setSub_self]
  · dsimp only
    rw [getSub_setSub_self]
  · dsimp only
    rw [getSub_setSub_self]
  · dsimp only
    rw [getSub_setSub_self]
  · dsimp only
    rw [getSub_setSub_other _ _ _ _ (other_team_ne team)]
    cases team <;> rfl

/-- C7 witness: blue surfaces from a fresh playing state. -/
theorem C7_captain_surface_effects_witness :
    (captain_surface (mkPlayingGame (5, 5) (10, 10)) .blue).ok = true ∧
    (getSub (captain_surface (mkPlayingGame (5, 5) (10, 10)) .blue).game
        .blue).trail = [(5, 5)] :=
  ⟨by decide,
   (C7_captain_surface_effects (mkPlayingGame (5, 5) (10, 10)) .blue
      (by decide)).1.trans (by decide)⟩

/-! ### C6 — end-turn gating -/

theorem systems_all_full_iff (sub : Submarine) :
    (([System.torpedo, .mine, .sonar, .drone, .stealth].all
       fun s => sub.systems.get s ≥ SYSTEM_MAX_CHARGE s) = true) ↔
    ∀ s : System, sub.systems.get s ≥ SYSTEM_MAX_CHARGE s := by
  rw [List.all_eq_true]
  constructor
  · intro h s
    have := h s
    cases s <;> simp_all
  · intro h s _
    simpa using h s

theorem end_turn_ok_eq (g : Game) (team : Team) :
    (end_turn g team).ok = (can_end_turn g team).1 := by
  rcases h : can_end_turn g team with ⟨ok, msg⟩
  simp only [end_turn, h]
  cases ok <;> simp [fail]

/-- C6: `end_turn(team)` succeeds iff the caller is the active team,
the captain has moved, no sonar/drone response is outstanding, and —
whenever a public or stealth direction was established this turn — the
engineer has marked and the first mate has charged, the first-mate
requirement (and only it) being waived exactly when every system is
already at max charge. -/
theorem C6_end_turn_iff (g : Game) (team : Team) :
    (end_turn g team).ok = true ↔
      (current_team g = team ∧ g.turn_state.moved = true ∧
       g.turn_state.waiting_for = none ∧
       ((g.turn_state.direction ≠ none ∨ g.turn_state.stealth_direction ≠ none) →
         (g.turn_state.engineer_done = true ∧
          (g.turn_state.first_mate_done = true ∨
           ∀ s : System, (getSub g team).systems.get s ≥ SYSTEM_MAX_CHARGE s)))) := by
  rw [end_turn_ok_eq]
  simp only [can_end_turn]
  split_ifs with h1 h2 h3 h4 h5 h6 h7 <;>
    simp_all [Option.isSome_iff_ne_none, systems_all_full_iff]
  · intro s
    obtain ⟨a1, a2, a3, a4, a5⟩ := h7
    cases s <;> assumption
  · rcases Nat.lt_or_ge ((getSub g team).systems.get .torpedo)
      (SYSTEM_MAX_CHARGE .torpedo) with ha | ha
    · exact ⟨_, ha⟩
    · rcases Nat.lt_or_ge ((getSub g team).systems.get .mine)
        (SYSTEM_MAX_CHARGE .mine) with hb | hb
      · exact ⟨_, hb⟩
      · rcases Nat.lt_or_ge ((getSub g team).systems.get .sonar)
          (SYSTEM_MAX_CHARGE .sonar) with hc | hc
        · exact ⟨_, hc⟩
        · rcases Nat.lt_or_ge ((getSub g team).systems.get .drone)
            (SYSTEM_MAX_CHARGE .drone) with hd | hd
          · exact ⟨_, hd⟩
          · exact ⟨_, h7 ha hb hc hd⟩

/-- C6 witness: a finished turn can end; the same state with the
engineer step missing cannot. -/
theorem C6_end_turn_iff_witness :
    (end_turn gC6 .blue).ok = true ∧
    (end_turn { gC6 with turn_state :=
        { gC6.turn_state with engineer_done := false } } .blue).ok = false :=
  ⟨(C6_end_turn_iff gC6 .blue).mpr (by decide),
   by
     have h := C6_end_turn_iff
       { gC6 with turn_state := { gC6.turn_state with engineer_done := false } }
       .blue
     rcases hh : (end_turn { gC6 with turn_state :=
         { gC6.turn_state with engineer_done := false } } .blue).ok with _ | _
     · rfl
     · exact absurd ((h.mp hh).2.2.2 (by decide)).1 (by decide)⟩

/-! ### C5 — sonar response validation -/

/-- C5: while a sonar response is pending and the activating team holds
the turn, `captain_respond_sonar` accepts iff both claim types are among
row/col/sector, the types differ, and — evaluated against the responding
team actual position and sector — exactly one claim is true; every
rejection leaves the game (and hence the pending wait) unchanged, and
acceptance clears the wait. -/
theorem C5_respond_sonar_iff (g : Game) (rt : Team) (t1 : String) (v1 : Int)
    (t2 : String) (v2 : Int)
    (hw : g.turn_state.waiting_for = some .sonar_response)
    (hc : current_team g = other_team rt) :
    ((captain_respond_sonar g rt t1 v1 t2 v2).ok = true ↔
      (t1 ∈ ["row", "col", "sector"] ∧ t2 ∈ ["row", "col", "sector"] ∧
       t1 ≠ t2 ∧
       sonar_claim_true g rt t1 v1 ≠ sonar_claim_true g rt t2 v2)) ∧
    ((captain_respond_sonar g rt t1 v1 t2 v2).ok = false →
      (captain_respond_sonar g rt t1 v1 t2 v2).game = g) ∧
    ((captain_respond_sonar g rt t1 v1 t2 v2).ok = true →
      (captain_respond_sonar g rt t1 v1 t2 v2).game.turn_state.waiting_for
        = none) := by
  simp only [captain_respond_sonar, hw, hc]
  split_ifs with h0 h1 h2 h3 h4 <;>
    simp_all [fail]
  all_goals
    cases hx : sonar_claim_true g rt t1 v1 <;>
      cases hy : sonar_claim_true g rt t2 v2 <;> simp_all

/-- C5 witness: responder at (5, 9); row claim 7 is false, col claim 9
is true — accepted. -/
theorem C5_respond_sonar_iff_witness :
    (captain_respond_sonar gC5 .red "row" 7 "col" 9).ok = true :=
  ((C5_respond_sonar_iff gC5 .red "row" 7 "col" 9 (by decide)
      (by decide)).1).mpr (by decide)

/-! ### C2 — weapon gating on `moved` and `system_used` -/

/-- C2 counterexample: the claim says stealth is rejected unless the
captain has already moved this turn; in fact a stealth move succeeds
from a state with `moved == false` (stealth *is* the move). -/
theorem C2_counterexample_stealth_before_move :
    gC2.turn_state.moved = false ∧
    (captain_use_stealth gC2 .blue .north 1).ok = true := by
  constructor
  · rfl
  · decide

theorem fire_ok_gates (g : Game) (team : Team) (tr tc : Int)
    (h : (captain_fire_torpedo g team tr tc).ok = true) :
    g.turn_state.moved = true ∧ g.turn_state.system_used = false := by
  simp only [captain_fire_torpedo] at h
  split_ifs at h with h1 h2 h3 h4 h5 h6 h7 h8 <;> try exact Bool.noConfusion h
  exact ⟨by simpa using h3, by simpa using h4⟩

theorem mine_ok_gates (g : Game) (team : Team) (tr tc : Int)
    (h : (captain_place_mine g team tr tc).ok = true) :
    g.turn_state.moved = true ∧ g.turn_state.system_used = false := by
  simp only [captain_place_mine] at h
  split_ifs at h with h1 h2 h3 h4 h5 h6 h7 h8 <;> try exact Bool.noConfusion h
  exact ⟨by simpa using h2, by simpa using h3⟩

theorem sonar_ok_gates (g : Game) (team : Team)
    (h : (captain_use_sonar g team).ok = true) :
    g.turn_state.moved = true ∧ g.turn_state.system_used = false := by
  simp only [captain_use_sonar] at h
  split_ifs at h with h1 h2 h3 h4 h5 <;> try exact Bool.noConfusion h
  exact ⟨by simpa using h2, by simpa using h3⟩

theorem drone_ok_gates (g : Game) (team : Team) (sector : Int)
    (h : (captain_use_drone g team sector).ok = true) :
    g.turn_state.moved = true ∧ g.turn_state.system_used = false := by
  simp only [captain_use_drone] at h
  split_ifs at h with h1 h2 h3 h4 h5 <;> try exact Bool.noConfusion h
  exact ⟨by simpa using h2, by simpa using h3⟩

theorem stealth_ok_gates (g : Game) (team : Team) (d : Direction) (steps : Int)
    (h : (captain_use_stealth g team d steps).ok = true) :
    g.turn_state.moved = false ∧ g.turn_state.system_used = false := by
  simp only [captain_use_stealth] at h
  split_ifs at h with h1 h2 h3 h4 h5 h6 <;> try exact Bool.noConfusion h
  split at h <;> try exact Bool.noConfusion h
  exact ⟨by simpa using h2, by simpa using h3⟩

/-- C2 (amended): torpedo, mine, sonar and drone are rejected unless
`moved == true`; stealth — being itself the movement of the turn — is instead
rejected when `moved == true`; and all five are rejected once
`system_used == true`, so at most one weapon activation happens per
turn. -/
theorem C2_amended_weapon_gating (g : Game) (team : Team)
    (tr tc sector : Int) (d : Direction) (steps : Int) :
    (g.turn_state.moved = false →
      (captain_fire_torpedo g team tr tc).ok = false ∧
      (captain_place_mine g team tr tc).ok = false ∧
      (captain_use_sonar g team).ok = false ∧
      (captain_use_drone g team sector).ok = false) ∧
    (g.turn_state.moved = true →
      (captain_use_stealth g team d steps).ok = false) ∧
    (g.turn_state.system_used = true →
      (captain_fire_torpedo g team tr tc).ok = false ∧
      (captain_place_mine g team tr tc).ok = false ∧
      (captain_use_sonar g team).ok = false ∧
      (captain_use_drone g team sector).ok = false ∧
      (captain_use_stealth g team d steps).ok = false) := by
  have hf := fire_ok_gates g team tr tc
  have hm := mine_ok_gates g team tr tc
  have hso := sonar_ok_gates g team
  have hdr := drone_ok_gates g team sector
  have hst := stealth_ok_gates g team d steps
  refine ⟨fun h => ⟨?_, ?_, ?_, ?_⟩, fun h => ?_, fun h => ⟨?_, ?_, ?_, ?_, ?_⟩⟩
  · cases hok : (captain_fire_torpedo g team tr tc).ok
    · rfl
    · exact absurd (hf hok).1 (by simp [h])
  · cases hok : (captain_place_mine g team tr tc).ok
    · rfl
    · exact absurd (hm hok).1 (by simp [h])
  · cases hok : (captain_use_sonar g team).ok
    · rfl
    · exact absurd (hso hok).1 (by simp [h])
  · cases hok : (captain_use_drone g team sector).ok
    · rfl
    · exact absurd (hdr hok).1 (by simp [h])
  · cases hok : (captain_use_stealth g team d steps).ok
    · rfl
    · exact absurd (hst hok).1 (by simp [h])
  · cases hok : (captain_fire_torpedo g team tr tc).ok
    · rfl
    · exact absurd (hf hok).2 (by simp [h])
  · cases hok : (captain_place_mine g team tr tc).ok
    · rfl
    · exact absurd (hm hok).2 (by simp [h])
  · cases hok : (captain_use_sonar g team).ok
    · rfl
    · exact absurd (hso hok).2 (by simp [h])
  · cases hok : (captain_use_drone g team sector).ok
    · rfl
    · exact absurd (hdr hok).2 (by simp [h])
  · cases hok : (captain_use_stealth g team d steps).ok
    · rfl
    · exact absurd (hst hok).2 (by simp [h])

/-- C2 amended witness: with nothing moved the torpedo is rejected, and
with the course announced stealth is rejected. -/
theorem C2_amended_weapon_gating_witness :
    (captain_fire_torpedo gC2a .blue 5 6).ok = false ∧
    (captain_use_stealth gC2b .blue .north 1).ok = false :=
  ⟨((C2_amended_weapon_gating gC2a .blue 5 6 0 .north 1).1 rfl).1,
   (C2_amended_weapon_gating gC2b .blue 5 6 0 .north 1).2.1 rfl⟩

/-! ### C1 — what is (and is not) rejected once the game has ended -/

/-- C1 counterexample: from a reachable mid-turn state, an engineering
overload drops blue to 0 health and ends the game, yet the very next
`captain_place_mine` call is *accepted* and mutates state — so not every
mutating entry point rejects after the phase becomes `ended`. -/
theorem C1_counterexample_mine_accepted_after_game_over :
    gC1ended.phase = .ended ∧
    (captain_place_mine gC1ended .blue 5 6).ok = true ∧
    (captain_place_mine gC1ended .blue 5 6).game.blue_sub.mines = [(5, 6)] := by
  refine ⟨by decide, by decide, by decide⟩

/-- C1 (amended): the game-over check turns the phase to `ended` (and
crowns a winner) as soon as the health of either submarine is ≤ 0; once the
phase is `ended`, the four phase-guarded entry points — move, surface,
torpedo, mine detonation — reject with the phase violation "Game not
active" and leave the state unchanged (the torpedo checks turn ownership
first).  The remaining mutating entry points perform no phase check. -/
theorem C1_amended_phase_gating (g : Game) (team : Team) (d : Direction)
    (tr tc mi : Int) :
    ((g.blue_sub.health ≤ 0 ∨ g.red_sub.health ≤ 0) →
      (check_game_over g).1.phase = .ended ∧
      (check_game_over g).2.isSome = true) ∧
    (g.phase = .ended →
      ((captain_move g team d).ok = false ∧
       (captain_move g team d).msg = some "Game not active" ∧
       (captain_move g team d).game = g) ∧
      ((captain_surface g team).ok = false ∧
       (captain_surface g team).msg = some "Game not active" ∧
       (captain_surface g team).game = g) ∧
      ((captain_fire_torpedo g team tr tc).ok = false ∧
       (captain_fire_torpedo g team tr tc).game = g ∧
       (current_team g = team →
         (captain_fire_torpedo g team tr tc).msg = some "Game not active")) ∧
      ((captain_detonate_mine g team mi).ok = false ∧
       (captain_detonate_mine g team mi).msg = some "Game not active" ∧
       (captain_detonate_mine g team mi).game = g)) := by
  constructor
  · intro h
    simp only [check_game_over]
    split_ifs with a b <;> simp_all
  · intro h
    have hne : g.phase ≠ Phase.playing := fun hc => by
      rw [h] at hc
      exact Phase.noConfusion hc
    refine ⟨?_, ?_, ?_, ?_⟩
    · simp only [captain_move, if_pos hne]
      exact ⟨rfl, rfl, rfl⟩
    · simp only [captain_surface, if_pos hne]
      exact ⟨rfl, rfl, rfl⟩
    · by_cases hct : current_team g = team
      · have hcc : ¬ current_team g ≠ team := fun hcc => hcc hct
        simp only [captain_fire_torpedo, if_neg hcc, if_pos hne]
        exact ⟨rfl, rfl, fun _ => rfl⟩
      · simp only [captain_fire_torpedo, if_pos hct]
        exact ⟨rfl, rfl, fun hcon => absurd hcon hct⟩
    · simp only [captain_detonate_mine, if_pos hne]
      exact ⟨rfl, rfl, rfl⟩

/-- C1 amended witness: at the concrete ended game, the game-over check
reports `ended` and the phase-guarded entry points reject. -/
theorem C1_amended_phase_gating_witness :
    (check_game_over gC1ended).1.phase = .ended ∧
    (captain_move gC1ended .blue .north).ok = false ∧
    (captain_fire_torpedo gC1ended .blue 5 6).msg = some "Game not active" :=
  ⟨((C1_amended_phase_gating gC1ended .blue .north 5 6 0).1
      (Or.inl (by decide))).1,
   (((C1_amended_phase_gating gC1ended .blue .north 5 6 0).2
      (by decide)).1).1,
   ((((C1_amended_phase_gating gC1ended .blue .north 5 6 0).2
      (by decide)).2.2.1).2.2) (by decide)⟩

/-! ### C4 — torpedo range and explosion damage -/

theorem check_game_over_of_pos (x : Game) (hb : 0 < x.blue_sub.health)
    (hr : 0 < x.red_sub.health) : check_game_over x = (x, none) := by
  simp only [check_game_over]
  rw [if_neg (by omega), if_neg (by omega)]

theorem check_game_over_blue_dead (x : Game) (hb : x.blue_sub.health ≤ 0) :
    (check_game_over x).1 = { x with phase := .ended, winner := some .red } := by
  simp only [check_game_over]
  rw [if_pos hb]

theorem explosion_step_game (tr tc : Int) (g : Game) (evs : List Event)
    (team : Team) (p : Int × Int)
    (hph : g.phase ≠ .ended) (hp : (getSub g team).position = some p) :
    (explosion_step tr tc (g, evs) team).1 =
      if chebDamage p tr tc = 0 then g
      else (check_game_over (setSub g team
            { getSub g team with
              health := (getSub g team).health - chebDamage p tr tc })).1 := by
  obtain ⟨pr2, pc2⟩ := p
  simp only [explosion_step, hp, chebDamage]
  rw [if_neg hph]
  by_cases h0 : max (tr - pr2).natAbs (tc - pc2).natAbs = 0
  · simp [h0]
  · by_cases h1 : max (tr - pr2).natAbs (tc - pc2).natAbs = 1
    · simp [h0, h1]
    · simp [h0, h1]

theorem explosion_step_ended (tr tc : Int) (g : Game) (evs : List Event)
    (team : Team) (hph : g.phase = .ended) :
    explosion_step tr tc (g, evs) team = (g, evs) := by
  simp only [explosion_step]
  rw [if_pos hph]

theorem setSub_blue_red (g : Game) (s : Submarine) :
    (setSub g .blue s).red_sub = g.red_sub := rfl

theorem setSub_red_blue (g : Game) (s : Submarine) :
    (setSub g .red s).blue_sub = g.blue_sub := rfl

theorem setSub_blue_blue (g : Game) (s : Submarine) :
    (setSub g .blue s).blue_sub = s := rfl

theorem setSub_red_red (g : Game) (s : Submarine) :
    (setSub g .red s).red_sub = s := rfl

theorem cgo_fst_blue_sub (x : Game) :
    (check_game_over x).1.blue_sub = x.blue_sub := by
  simp only [check_game_over]
  split_ifs <;> rfl

theorem cgo_fst_red_sub (x : Game) :
    (check_game_over x).1.red_sub = x.red_sub := by
  simp only [check_game_over]
  split_ifs <;> rfl

theorem cgo_fst_phase_dead (x : Game)
    (h : x.blue_sub.health ≤ 0 ∨ x.red_sub.health ≤ 0) :
    (check_game_over x).1.phase = .ended := by
  simp only [check_game_over]
  split_ifs with a b <;> first | rfl | omega

theorem cgo_fst_phase_alive (x : Game) (hb : 0 < x.blue_sub.health)
    (hr : 0 < x.red_sub.health) :
    (check_game_over x).1.phase = x.phase := by
  rw [check_game_over_of_pos x hb hr]

/-- The red iteration of the explosion loop never touches the blue
submarine. -/
theorem explosion_step_blue_sub (tr tc : Int) (acc : Game × List Event) :
    (explosion_step tr tc acc .red).1.blue_sub = acc.1.blue_sub := by
  rcases acc with ⟨g, evs⟩
  simp only [explosion_step]
  by_cases h : g.phase = .ended
  · rw [if_pos h]
  · rw [if_neg h]
    rcases hp : (getSub g .red).position with _ | ⟨r, c⟩
    · simp only [hp]
    · simp only [hp]
      split_ifs with hd hz
      · dsimp only
        rw [cgo_fst_blue_sub, setSub_red_blue]
      · dsimp only
        rw [cgo_fst_blue_sub, setSub_red_blue]
      · rfl

/-- C4 counterexample: blue (1 health) fires at the cell occupied by red; blue is
at Chebyshev distance 1 and dies first, the game ends, and red — at
Chebyshev distance 0, where the claim demands 2 damage — takes none. -/
theorem C4_counterexample_no_damage_at_distance_zero :
    (captain_fire_torpedo gC4 .blue 5 6).ok = true ∧
    gC4.red_sub.position = some (5, 6) ∧
    (captain_fire_torpedo gC4 .blue 5 6).game.phase = .ended ∧
    (captain_fire_torpedo gC4 .blue 5 6).game.red_sub.health
      = gC4.red_sub.health := by
  refine ⟨by decide, by decide, by decide, by decide⟩

/-- C4 (amended): a torpedo only fires at Manhattan distance 1-4; blast
damage is 2 at Chebyshev distance 0, 1 at distance 1, 0 beyond, applied
to both submarines (the firer own team included) in dict order blue-then-
red — except that when the damage to the blue submarine brings its health to
zero the game ends immediately and red takes no damage from the same
explosion. -/
theorem C4_amended_range_and_explosion :
    (∀ (g : Game) (team : Team) (tr tc : Int),
      (captain_fire_torpedo g team tr tc).ok = true →
        1 ≤ manhattanDist (posOf (getSub g team)) tr tc ∧
        manhattanDist (posOf (getSub g team)) tr tc ≤ 4) ∧
    (∀ (g : Game) (ft : Team) (tr tc : Int) (pb pr : Int × Int),
      g.phase = .playing →
      g.blue_sub.position = some pb → g.red_sub.position = some pr →
      0 < g.blue_sub.health → 0 < g.red_sub.health →
        ((apply_explosion g ft tr tc).1.blue_sub.health
          = g.blue_sub.health - chebDamage pb tr tc) ∧
        (0 < g.blue_sub.health - chebDamage pb tr tc →
          (apply_explosion g ft tr tc).1.red_sub.health
            = g.red_sub.health - chebDamage pr tr tc) ∧
        (g.blue_sub.health - chebDamage pb tr tc ≤ 0 →
          (apply_explosion g ft tr tc).1.phase = .ended ∧
          (apply_explosion g ft tr tc).1.red_sub.health
            = g.red_sub.health)) := by
  constructor
  · intro g team tr tc h
    simp only [captain_fire_torpedo] at h
    split_ifs at h with h1 h2 h3 h4 h5 h6 h7 h8 <;> try exact Bool.noConfusion h
    try simp only [posOf] at h6
    simp only [manhattanDist, posOf]
    omega
  · intro g ft tr tc pb pr hphase hpb hpr hhb hhr
    have hne : g.phase ≠ .ended := by
      rw [hphase]
      exact fun hc => Phase.noConfusion hc
    have hstep1 := explosion_step_game tr tc g [] .blue pb hne hpb
    rcases hs1 : explosion_step tr tc (g, []) .blue with ⟨G1, E1⟩
    rw [hs1] at hstep1
    simp only at hstep1
    simp only [apply_explosion, List.foldl_cons, List.foldl_nil, hs1]
    by_cases hd0 : chebDamage pb tr tc = 0
    · -- blue untouched: G1 = g, red processed normally
      rw [if_pos hd0] at hstep1
      rw [hstep1]
      have hstep2 := explosion_step_game tr tc g E1 .red pr hne hpr
      rcases hs2 : explosion_step tr tc (g, E1) .red with ⟨G2, E2⟩
      rw [hs2] at hstep2
      simp only at hstep2
      simp only [hs2]
      try dsimp only
      have hblue : G2.blue_sub = g.blue_sub := by
        have hpres := explosion_step_blue_sub tr tc (g, E1)
        rw [hs2] at hpres
        exact hpres
      refine ⟨?_, fun _ => ?_, fun hcon => absurd hcon (by omega)⟩
      · rw [hblue, hd0]
        omega
      · by_cases hr0 : chebDamage pr tr tc = 0
        · rw [if_pos hr0] at hstep2
          subst hstep2
          rw [hr0]
          omega
        · rw [if_neg hr0] at hstep2
          subst hstep2
          rw [cgo_fst_red_sub, setSub_red_red]
          rfl
    · -- blue damaged
      rw [if_neg hd0] at hstep1
      have hXb : (setSub g .blue
          { getSub g .blue with
            health := (getSub g .blue).health - chebDamage pb tr tc }).blue_sub.health
          = g.blue_sub.health - chebDamage pb tr tc := rfl
      have hXr : (setSub g .blue
          { getSub g .blue with
            health := (getSub g .blue).health - chebDamage pb tr tc }).red_sub
          = g.red_sub := rfl
      have hG1b : G1.blue_sub.health = g.blue_sub.health - chebDamage pb tr tc := by
        rw [hstep1, cgo_fst_blue_sub, hXb]
      have hG1r : G1.red_sub = g.red_sub := by
        rw [hstep1, cgo_fst_red_sub, hXr]
      by_cases hbd : g.blue_sub.health - chebDamage pb tr tc ≤ 0
      · -- blue dies: game ends, red skipped
        have hG1phase : G1.phase = .ended := by
          rw [hstep1]
          exact cgo_fst_phase_dead _ (Or.inl (by rw [hXb]; exact hbd))
        rw [explosion_step_ended tr tc G1 E1 .red hG1phase]
        dsimp only
        exact ⟨hG1b, fun hcon => absurd hcon (by omega),
               fun _ => ⟨hG1phase, congrArg Submarine.health hG1r⟩⟩
      · -- blue survives: red processed normally
        have hG1phase : G1.phase = g.phase := by
          rw [hstep1]
          exact cgo_fst_phase_alive _ (by rw [hXb]; omega) (by rw [hXr]; exact hhr)
        have hne2 : G1.phase ≠ .ended := by
          rw [hG1phase]
          exact hne
        have hpr2 : (getSub G1 .red).position = some pr := by
          show G1.red_sub.position = some pr
          rw [hG1r]
          exact hpr
        have hstep2 := explosion_step_game tr tc G1 E1 .red pr hne2 hpr2
        rcases hs2 : explosion_step tr tc (G1, E1) .red with ⟨G2, E2⟩
        rw [hs2] at hstep2
        simp only at hstep2
        simp only [hs2]
        try dsimp only
        have hblue : G2.blue_sub = G1.blue_sub := by
          have hpres := explosion_step_blue_sub tr tc (G1, E1)
          rw [hs2] at hpres
          exact hpres
        refine ⟨?_, fun _ => ?_, fun hcon => absurd hcon (by omega)⟩
        · rw [hblue, hG1b]
        · by_cases hr0 : chebDamage pr tr tc = 0
          · rw [if_pos hr0] at hstep2
            rw [hstep2, hG1r, hr0]
            omega
          · rw [if_neg hr0] at hstep2
            rw [hstep2, cgo_fst_red_sub, setSub_red_red]
            show G1.red_sub.health - chebDamage pr tr tc
              = g.red_sub.health - chebDamage pr tr tc
            rw [hG1r]

/-- C4 amended witness: a successful in-range shot, and the concrete
explosion from `gC4` (blue dies, red untouched). -/
theorem C4_amended_range_and_explosion_witness :
    (1 ≤ manhattanDist (posOf (getSub gC4 .blue)) 5 6 ∧
     manhattanDist (posOf (getSub gC4 .blue)) 5 6 ≤ 4) ∧
    (apply_explosion gC4 .blue 5 6).1.blue_sub.health = 0 ∧
    (apply_explosion gC4 .blue 5 6).1.phase = .ended ∧
    (apply_explosion gC4 .blue 5 6).1.red_sub.health = 4 :=
  ⟨C4_amended_range_and_explosion.1 gC4 .blue 5 6 (by decide),
   by
     have h := C4_amended_range_and_explosion.2 gC4 .blue 5 6 (5, 5) (5, 6)
       (by decide) (by decide) (by decide) (by decide) (by decide)
     exact ⟨h.1.trans (by decide), (h.2.2 (by decide)).1,
            ((h.2.2 (by decide)).2).trans (by decide)⟩⟩

/-! ### C3 — engineering-board marking priority -/

theorem allDirectionMarked_iff (b : Marks) (d : Direction) :
    allDirectionMarked b d = true ↔ ∀ j : Fin 6, b d j = true := by
  rw [allDirectionMarked, List.all_eq_true]
  constructor
  · intro h j
    exact h j (List.mem_finRange j)
  · intro h j _
    exact h j

theorem total_radiation_ge_iff (b : Marks) :
    (total_radiation b ≥ RADIATION_NODES.length) ↔
      ∀ p ∈ RADIATION_NODES, b p.1 p.2 = true := by
  cases h1 : b .west 5 <;> cases h2 : b .north 5 <;> cases h3 : b .south 5 <;>
    cases h4 : b .east 5 <;>
      simp [total_radiation, RADIATION_NODES, List.filter, h1, h2, h3, h4]

theorem circuitComplete_iff (b : Marks) (cid : Nat) :
    circuitComplete b cid = true ↔ ∀ p ∈ CIRCUITS cid, b p.1 p.2 = true := by
  rw [circuitComplete, List.all_eq_true]

theorem nodeCircuit_cases (d : Direction) (i : Fin 6) (cid : Nat)
    (h : nodeCircuit d i = some cid) : cid = 1 ∨ cid = 2 ∨ cid = 3 := by
  fin_cases i <;> simp [nodeCircuit] at h <;> omega

theorem clearCircuit_spec (b : Marks) (cid : Nat)
    (hc : cid = 1 ∨ cid = 2 ∨ cid = 3) (d : Direction) (j : Fin 6) :
    clearCircuit b cid d j
      = if (d, j) ∈ CIRCUITS cid then false else b d j := by
  rcases hc with rfl | rfl | rfl <;> cases d <;> fin_cases j <;>
    simp [clearCircuit, CIRCUITS, setMark]

/-- C3: marking an already-marked node fails and changes nothing;
otherwise the mark applies and, in strict priority order: a completed
direction section clears the whole board with one damage event (even if
a circuit or the radiation set would also complete), else a completed
radiation set clears the whole board with one damage event, else a
completed circuit clears exactly its 4 member nodes with no damage,
else the node simply stays marked. -/
theorem C3_engineer_mark_node_priority (b : Marks) (d : Direction) (i : Fin 6) :
    (b d i = true →
      engineer_mark_node b d i = ([.error "Node already marked"], b)) ∧
    (b d i = false →
      ((∀ j, setMark b d i true d j = true) →
          (engineer_mark_node b d i).1 = [.direction_damage d 1] ∧
          ∀ d' j, (engineer_mark_node b d i).2 d' j = false) ∧
      ((¬ ∀ j, setMark b d i true d j = true) →
       (∀ p ∈ RADIATION_NODES, setMark b d i true p.1 p.2 = true) →
          (engineer_mark_node b d i).1 = [.radiation_damage 1] ∧
          ∀ d' j, (engineer_mark_node b d i).2 d' j = false) ∧
      ((¬ ∀ j, setMark b d i true d j = true) →
       (¬ ∀ p ∈ RADIATION_NODES, setMark b d i true p.1 p.2 = true) →
        (∀ cid, nodeCircuit d i = some cid →
          ((∀ p ∈ CIRCUITS cid, setMark b d i true p.1 p.2 = true) →
              (engineer_mark_node b d i).1 = [.circuit_cleared cid] ∧
              ∀ d' j, (engineer_mark_node b d i).2 d' j =
                (if (d', j) ∈ CIRCUITS cid then false
                 else setMark b d i true d' j)) ∧
          ((¬ ∀ p ∈ CIRCUITS cid, setMark b d i true p.1 p.2 = true) →
              engineer_mark_node b d i = ([], setMark b d i true))) ∧
        (nodeCircuit d i = none →
          engineer_mark_node b d i = ([], setMark b d i true)))) := by
  constructor
  · intro h
    simp [engineer_mark_node, h]
  · intro h
    refine ⟨?_, ?_, ?_⟩
    · intro hall
      have hA : allDirectionMarked (setMark b d i true) d = true :=
        (allDirectionMarked_iff _ _).mpr hall
      simp [engineer_mark_node, h, hA, clear_engineering_board]
    · intro hnall hrad
      have hA : allDirectionMarked (setMark b d i true) d = false := by
        rw [← Bool.not_eq_true]
        exact fun hc => hnall ((allDirectionMarked_iff _ _).mp hc)
      have hR : total_radiation (setMark b d i true) ≥ RADIATION_NODES.length :=
        (total_radiation_ge_iff _).mpr hrad
      simp [engineer_mark_node, h, hA, hR, clear_engineering_board]
    · intro hnall hnrad
      have hA : allDirectionMarked (setMark b d i true) d = false := by
        rw [← Bool.not_eq_true]
        exact fun hc => hnall ((allDirectionMarked_iff _ _).mp hc)
      have hR : ¬ total_radiation (setMark b d i true) ≥ RADIATION_NODES.length :=
        fun hc => hnrad ((total_radiation_ge_iff _).mp hc)
      constructor
      · intro cid hcid
        constructor
        · intro hcc
          have hC : circuitComplete (setMark b d i true) cid = true :=
            (circuitComplete_iff _ _).mpr hcc
          constructor
          · simp [engineer_mark_node, h, hA, hR, hcid, hC]
          · intro d' j
            have hspec := clearCircuit_spec (setMark b d i true) cid
              (nodeCircuit_cases d i cid hcid) d' j
            simp [engineer_mark_node, h, hA, hR, hcid, hC, hspec]
        · intro hcc
          have hC : circuitComplete (setMark b d i true) cid = false := by
            rw [← Bool.not_eq_true]
            exact fun hc => hcc ((circuitComplete_iff _ _).mp hc)
          simp [engineer_mark_node, h, hA, hR, hcid, hC]
      · intro hcid
        simp [engineer_mark_node, h, hA, hR, hcid]

/-- C3 witness: marking (north, 0) on a board where that mark completes
the north section, circuit 1 and the radiation set simultaneously —
direction overload wins: one damage event and a fully cleared board. -/
theorem C3_engineer_mark_node_priority_witness :
    bTriple .north 0 = false ∧
    (engineer_mark_node bTriple .north 0).1 = [.direction_damage .north 1] ∧
    ∀ d' j, (engineer_mark_node bTriple .north 0).2 d' j = false :=
  ⟨by decide,
   (((C3_engineer_mark_node_priority bTriple .north 0).2 (by decide)).1
      (by decide)).1,
   (((C3_engineer_mark_node_priority bTriple .north 0).2 (by decide)).1
      (by decide)).2⟩

/-! ### C9 — failures return a reason and leave the state unchanged -/

theorem frame_of_ite (g : Game) (c : Prop) [Decidable c] (m : String)
    (t : ActionResult) (hm : m ≠ "")
    (ht : t.ok = false → t.game = g ∧ ∃ s, t.msg = some s ∧ s ≠ "") :
    (if c then fail g m else t).ok = false →
      (if c then fail g m else t).game = g ∧
      ∃ s, (if c then fail g m else t).msg = some s ∧ s ≠ "" := by
  split_ifs with hc
  · exact fun _ => ⟨rfl, m, rfl, hm⟩
  · exact ht

theorem frameMark_of_ite (g : Game) (c : Prop) [Decidable c] (m : String)
    (t : MarkResult) (hm : m ≠ "")
    (ht : t.ok = false → t.game = g ∧ ∃ s, t.msg = some s ∧ s ≠ "") :
    (if c then failMark g m else t).ok = false →
      (if c then failMark g m else t).game = g ∧
      ∃ s, (if c then failMark g m else t).msg = some s ∧ s ≠ "" := by
  split_ifs with hc
  · exact fun _ => ⟨rfl, m, rfl, hm⟩
  · exact ht

theorem place_submarine_fail_frame (g : Game) (team : Team) (row col : Int)
    (h : (place_submarine g team row col).ok = false) :
    (place_submarine g team row col).game = g ∧
    ∃ s, (place_submarine g team row col).msg = some s ∧ s ≠ "" := by
  revert h
  simp only [place_submarine]
  refine frame_of_ite g _ _ _ (by decide) ?_
  refine frame_of_ite g _ _ _ (by decide) ?_
  refine frame_of_ite g _ _ _ (by decide) ?_
  exact fun hcon => Bool.noConfusion hcon

theorem captain_move_fail_frame (g : Game) (team : Team) (d : Direction)
    (h : (captain_move g team d).ok = false) :
    (captain_move g team d).game = g ∧
    ∃ s, (captain_move g team d).msg = some s ∧ s ≠ "" := by
  revert h
  simp only [captain_move]
  refine frame_of_ite g _ _ _ (by decide) ?_
  refine frame_of_ite g _ _ _ (by decide) ?_
  refine frame_of_ite g _ _ _ (by decide) ?_
  refine frame_of_ite g _ _ _ (by decide) ?_
  refine frame_of_ite g _ _ _ (by decide) ?_
  refine frame_of_ite g _ _ _ (by decide) ?_
  refine frame_of_ite g _ _ _ (by decide) ?_
  refine frame_of_ite g _ _ _ (by decide) ?_
  exact fun hcon => Bool.noConfusion hcon

theorem captain_surface_fail_frame (g : Game) (team : Team)
    (h : (captain_surface g team).ok = false) :
    (captain_surface g team).game = g ∧
    ∃ s, (captain_surface g team).msg = some s ∧ s ≠ "" := by
  revert h
  simp only [captain_surface]
  refine frame_of_ite g _ _ _ (by decide) ?_
  refine frame_of_ite g _ _ _ (by decide) ?_
  refine frame_of_ite g _ _ _ (by decide) ?_
  refine frame_of_ite g _ _ _ (by decide) ?_
  exact fun hcon => Bool.noConfusion hcon

theorem captain_dive_fail_frame (g : Game) (team : Team)
    (h : (captain_dive g team).ok = false) :
    (captain_dive g team).game = g ∧
    ∃ s, (captain_dive g team).msg = some s ∧ s ≠ "" := by
  revert h
  simp only [captain_dive]
  refine frame_of_ite g _ _ _ (by decide) ?_
  refine frame_of_ite g _ _ _ (by decide) ?_
  exact fun hcon => Bool.noConfusion hcon

theorem engineer_mark_fail_frame (g : Game) (team : Team) (d : Direction)
    (i : Fin 6) (h : (engineer_mark g team d i).ok = false) :
    (engineer_mark g team d i).game = g ∧
    ∃ s, (engineer_mark g team d i).msg = some s ∧ s ≠ "" := by
  revert h
  simp only [engineer_mark]
  refine frameMark_of_ite g _ _ _ (by decide) ?_
  refine frameMark_of_ite g _ _ _ (by decide) ?_
  rcases hed : (match g.turn_state.direction with
    | some dd => some dd
    | none => g.turn_state.stealth_direction) with _ | ed <;> rw [hed]
  · exact fun _ => ⟨rfl, _, rfl, by decide⟩
  · refine frameMark_of_ite g _ _ _ (by decide) ?_
    refine frameMark_of_ite g _ _ _ ?_ ?_
    · intro hc
      cases ed <;> exact absurd hc (by decide)
    · refine frameMark_of_ite g _ _ _ (by decide) ?_
      exact fun hcon => Bool.noConfusion hcon

theorem first_mate_charge_fail_frame (g : Game) (team : Team) (sys : System)
    (h : (first_mate_charge g team sys).ok = false) :
    (first_mate_charge g team sys).game = g ∧
    ∃ s, (first_mate_charge g team sys).msg = some s ∧ s ≠ "" := by
  revert h
  simp only [first_mate_charge]
  refine frame_of_ite g _ _ _ (by decide) ?_
  refine frame_of_ite g _ _ _ (by decide) ?_
  rcases hed : (match g.turn_state.direction with
    | some dd => some dd
    | none => g.turn_state.stealth_direction) with _ | ed <;> rw [hed]
  · exact fun _ => ⟨rfl, _, rfl, by decide⟩
  · refine frame_of_ite g _ _ _ (by decide) ?_
    refine frame_of_ite g _ _ _ ?_ ?_
    · intro hc
      cases sys <;> exact absurd hc (by decide)
    · exact fun hcon => Bool.noConfusion hcon

theorem captain_fire_torpedo_fail_frame (g : Game) (team : Team) (tr tc : Int)
    (h : (captain_fire_torpedo g team tr tc).ok = false) :
    (captain_fire_torpedo g team tr tc).game = g ∧
    ∃ s, (captain_fire_torpedo g team tr tc).msg = some s ∧ s ≠ "" := by
  revert h
  simp only [captain_fire_torpedo]
  refine frame_of_ite g _ _ _ (by decide) ?_
  refine frame_of_ite g _ _ _ (by decide) ?_
  refine frame_of_ite g _ _ _ (by decide) ?_
  refine frame_of_ite g _ _ _ (by decide) ?_
  refine frame_of_ite g _ _ _ (by decide) ?_
  refine frame_of_ite g _ _ _ (by decide) ?_
  refine frame_of_ite g _ _ _ (by decide) ?_
  refine frame_of_ite g _ _ _ (by decide) ?_
  exact fun hcon => Bool.noConfusion hcon

theorem captain_place_mine_fail_frame (g : Game) (team : Team) (tr tc : Int)
    (h : (captain_place_mine g team tr tc).ok = false) :
    (captain_place_mine g team tr tc).game = g ∧
    ∃ s, (captain_place_mine g team tr tc).msg = some s ∧ s ≠ "" := by
  revert h
  simp only [captain_place_mine]
  refine frame_of_ite g _ _ _ (by decide) ?_
  refine frame_of_ite g _ _ _ (by decide) ?_
  refine frame_of_ite g _ _ _ (by decide) ?_
  refine frame_of_ite g _ _ _ (by decide) ?_
  refine frame_of_ite g _ _ _ (by decide) ?_
  refine frame_of_ite g _ _ _ (by decide) ?_
  refine frame_of_ite g _ _ _ (by decide) ?_
  refine frame_of_ite g _ _ _ (by decide) ?_
  exact fun hcon => Bool.noConfusion hcon

theorem captain_detonate_mine_fail_frame (g : Game) (team : Team) (mi : Int)
    (h : (captain_detonate_mine g team mi).ok = false) :
    (captain_detonate_mine g team mi).game = g ∧
    ∃ s, (captain_detonate_mine g team mi).msg = some s ∧ s ≠ "" := by
  revert h
  simp only [captain_detonate_mine]
  refine frame_of_ite g _ _ _ (by decide) ?_
  refine frame_of_ite g _ _ _ (by decide) ?_
  refine frame_of_ite g _ _ _ (by decide) ?_
  refine frame_of_ite g _ _ _ (by decide) ?_
  refine frame_of_ite g _ _ _ (by decide) ?_
  exact fun hcon => Bool.noConfusion hcon

theorem captain_use_sonar_fail_frame (g : Game) (team : Team)
    (h : (captain_use_sonar g team).ok = false) :
    (captain_use_sonar g team).game = g ∧
    ∃ s, (captain_use_sonar g team).msg = some s ∧ s ≠ "" := by
  revert h
  simp only [captain_use_sonar]
  refine frame_of_ite g _ _ _ (by decide) ?_
  refine frame_of_ite g _ _ _ (by decide) ?_
  refine frame_of_ite g _ _ _ (by decide) ?_
  refine frame_of_ite g _ _ _ (by decide) ?_
  refine frame_of_ite g _ _ _ (by decide) ?_
  exact fun hcon => Bool.noConfusion hcon

theorem captain_respond_sonar_fail_frame (g : Game) (rt : Team)
    (t1 : String) (v1 : Int) (t2 : String) (v2 : Int)
    (h : (captain_respond_sonar g rt t1 v1 t2 v2).ok = false) :
    (captain_respond_sonar g rt t1 v1 t2 v2).game = g ∧
    ∃ s, (captain_respond_sonar g rt t1 v1 t2 v2).msg = some s ∧ s ≠ "" := by
  revert h
  simp only [captain_respond_sonar]
  refine frame_of_ite g _ _ _ (by decide) ?_
  refine frame_of_ite g _ _ _ (by decide) ?_
  refine frame_of_ite g _ _ _ (by decide) ?_
  refine frame_of_ite g _ _ _ (by decide) ?_
  refine frame_of_ite g _ _ _ (by decide) ?_
  refine frame_of_ite g _ _ _ (by decide) ?_
  exact fun hcon => Bool.noConfusion hcon

theorem captain_use_drone_fail_frame (g : Game) (team : Team) (sector : Int)
    (h : (captain_use_drone g team sector).ok = false) :
    (captain_use_drone g team sector).game = g ∧
    ∃ s, (captain_use_drone g team sector).msg = some s ∧ s ≠ "" := by
  revert h
  simp only [captain_use_drone]
  refine frame_of_ite g _ _ _ (by decide) ?_
  refine frame_of_ite g _ _ _ (by decide) ?_
  refine frame_of_ite g _ _ _ (by decide) ?_
  refine frame_of_ite g _ _ _ (by decide) ?_
  refine frame_of_ite g _ _ _ (by decide) ?_
  exact fun hcon => Bool.noConfusion hcon

theorem stealth_path_error_ne (g : Game) (mines : List (Int × Int))
    (dr dc : Int) (n : Nat) :
    ∀ (r c : Int) (vs : List (Int × Int)) (e : String),
      stealth_path g vs mines r c dr dc n = .error e → e ≠ "" := by
  induction n with
  | zero =>
    intro r c vs e h
    simp [stealth_path] at h
  | succ n ih =>
    intro r c vs e h
    simp only [stealth_path] at h
    split_ifs at h with h1 h2 h3
    all_goals try (injection h with he; subst he; decide)
    rcases hr : stealth_path g ((r + dr, c + dc) :: vs) mines
      (r + dr) (c + dc) dr dc n with e2 | p <;> rw [hr] at h
    · injection h with he
      subst he
      exact ih (r + dr) (c + dc) ((r + dr, c + dc) :: vs) e2 hr
    · exact Except.noConfusion h

theorem captain_use_stealth_fail_frame (g : Game) (team : Team) (d : Direction)
    (steps : Int) (h : (captain_use_stealth g team d steps).ok = false) :
    (captain_use_stealth g team d steps).game = g ∧
    ∃ s, (captain_use_stealth g team d steps).msg = some s ∧ s ≠ "" := by
  revert h
  simp only [captain_use_stealth]
  refine frame_of_ite g _ _ _ (by decide) ?_
  refine frame_of_ite g _ _ _ (by decide) ?_
  refine frame_of_ite g _ _ _ (by decide) ?_
  refine frame_of_ite g _ _ _ (by decide) ?_
  refine frame_of_ite g _ _ _ (by decide) ?_
  refine frame_of_ite g _ _ _ (by decide) ?_
  rcases hp : stealth_path g (getSub g team).trail (getSub g team).mines
      (posOf (getSub g team)).1 (posOf (getSub g team)).2
      (direction_delta d).1 (direction_delta d).2 steps.toNat with e | path
  · exact fun _ => ⟨rfl, e, rfl,
      stealth_path_error_ne g (getSub g team).mines
        (direction_delta d).1 (direction_delta d).2 steps.toNat
        (posOf (getSub g team)).1 (posOf (getSub g team)).2
        (getSub g team).trail e hp⟩
  · exact fun hcon => Bool.noConfusion hcon

theorem can_end_turn_false_msg (g : Game) (team : Team)
    (h : (can_end_turn g team).1 = false) :
    ∃ s, (can_end_turn g team).2 = some s ∧ s ≠ "" := by
  revert h
  simp only [can_end_turn]
  split_ifs <;> intro h <;>
    first
      | exact h.elim
      | exact Bool.noConfusion h
      | exact ⟨_, rfl, by decide⟩

theorem end_turn_fail_frame (g : Game) (team : Team)
    (h : (end_turn g team).ok = false) :
    (end_turn g team).game = g ∧
    ∃ s, (end_turn g team).msg = some s ∧ s ≠ "" := by
  rcases hc : can_end_turn g team with ⟨ok, msg⟩
  cases ok
  · obtain ⟨s, hs, hne⟩ := can_end_turn_false_msg g team (by rw [hc])
    rw [hc] at hs
    have hs2 : msg = some s := hs
    have hend : end_turn g team = fail g (msg.getD "") := by
      simp only [end_turn, hc]
      rw [if_pos (show ¬ false = true by simp)]
    rw [hend]
    subst hs2
    exact ⟨rfl, s, rfl, hne⟩
  · have hend : (end_turn g team).ok = true := by
      simp only [end_turn, hc]
      simp
    rw [hend] at h
    exact Bool.noConfusion h

/-- C9: every mutating entry point, whenever it fails, returns a
nonempty human-readable reason string and leaves the whole game state
exactly as it was — there is no partial application of an illegal
action (a stealth path that hits an island, trail cell or own mine
mid-way mutates nothing at all). -/
theorem C9_failure_is_pure :
    (∀ (g : Game) (team : Team) (row col : Int),
      (place_submarine g team row col).ok = false →
        (place_submarine g team row col).game = g ∧
        ∃ s, (place_submarine g team row col).msg = some s ∧ s ≠ "") ∧
    (∀ (g : Game) (team : Team) (d : Direction),
      (captain_move g team d).ok = false →
        (captain_move g team d).game = g ∧
        ∃ s, (captain_move g team d).msg = some s ∧ s ≠ "") ∧
    (∀ (g : Game) (team : Team),
      (captain_surface g team).ok = false →
        (captain_surface g team).game = g ∧
        ∃ s, (captain_surface g team).msg = some s ∧ s ≠ "") ∧
    (∀ (g : Game) (team : Team),
      (captain_dive g team).ok = false →
        (captain_dive g team).game = g ∧
        ∃ s, (captain_dive g team).msg = some s ∧ s ≠ "") ∧
    (∀ (g : Game) (team : Team) (d : Direction) (i : Fin 6),
      (engineer_mark g team d i).ok = false →
        (engineer_mark g team d i).game = g ∧
        ∃ s, (engineer_mark g team d i).msg = some s ∧ s ≠ "") ∧
    (∀ (g : Game) (team : Team) (sys : System),
      (first_mate_charge g team sys).ok = false →
        (first_mate_charge g team sys).game = g ∧
        ∃ s, (first_mate_charge g team sys).msg = some s ∧ s ≠ "") ∧
    (∀ (g : Game) (team : Team) (tr tc : Int),
      (captain_fire_torpedo g team tr tc).ok = false →
        (captain_fire_torpedo g team tr tc).game = g ∧
        ∃ s, (captain_fire_torpedo g team tr tc).msg = some s ∧ s ≠ "") ∧
    (∀ (g : Game) (team : Team) (tr tc : Int),
      (captain_place_mine g team tr tc).ok = false →
        (captain_place_mine g team tr tc).game = g ∧
        ∃ s, (captain_place_mine g team tr tc).msg = some s ∧ s ≠ "") ∧
    (∀ (g : Game) (team : Team) (mi : Int),
      (captain_detonate_mine g team mi).ok = false →
        (captain_detonate_mine g team mi).game = g ∧
        ∃ s, (captain_detonate_mine g team mi).msg = some s ∧ s ≠ "") ∧
    (∀ (g : Game) (team : Team),
      (captain_use_sonar g team).ok = false →
        (captain_use_sonar g team).game = g ∧
        ∃ s, (captain_use_sonar g team).msg = some s ∧ s ≠ "") ∧
    (∀ (g : Game) (rt : Team) (t1 : String) (v1 : Int) (t2 : String) (v2 : Int),
      (captain_respond_sonar g rt t1 v1 t2 v2).ok = false →
        (captain_respond_sonar g rt t1 v1 t2 v2).game = g ∧
        ∃ s, (captain_respond_sonar g rt t1 v1 t2 v2).msg = some s ∧ s ≠ "") ∧
    (∀ (g : Game) (team : Team) (sector : Int),
      (captain_use_drone g team sector).ok = false →
        (captain_use_drone g team sector).game = g ∧
        ∃ s, (captain_use_drone g team sector).msg = some s ∧ s ≠ "") ∧
    (∀ (g : Game) (team : Team) (d : Direction) (steps : Int),
      (captain_use_stealth g team d steps).ok = false →
        (captain_use_stealth g team d steps).game = g ∧
        ∃ s, (captain_use_stealth g team d steps).msg = some s ∧ s ≠ "") ∧
    (∀ (g : Game) (team : Team),
      (end_turn g team).ok = false →
        (end_turn g team).game = g ∧
        ∃ s, (end_turn g team).msg = some s ∧ s ≠ "") :=
  ⟨place_submarine_fail_frame, captain_move_fail_frame,
   captain_surface_fail_frame, captain_dive_fail_frame,
   engineer_mark_fail_frame, first_mate_charge_fail_frame,
   captain_fire_torpedo_fail_frame, captain_place_mine_fail_frame,
   captain_detonate_mine_fail_frame, captain_use_sonar_fail_frame,
   captain_respond_sonar_fail_frame, captain_use_drone_fail_frame,
   captain_use_stealth_fail_frame, end_turn_fail_frame⟩

/-- C9 witness: a mid-path stealth failure (own mine two cells east)
leaves the concrete game exactly unchanged, as does a move during
placement. -/
theorem C9_failure_is_pure_witness :
    (captain_use_stealth gC9 .blue .east 3).ok = false ∧
    (captain_use_stealth gC9 .blue .east 3).game = gC9 ∧
    (captain_move (make_game mapTest) .blue .north).ok = false ∧
    (captain_move (make_game mapTest) .blue .north).game = make_game mapTest :=
  ⟨by decide,
   (C9_failure_is_pure.2.2.2.2.2.2.2.2.2.2.2.2.1 gC9 .blue .east 3
      (by decide)).1,
   by decide,
   (C9_failure_is_pure.2.1 (make_game mapTest) .blue .north (by decide)).1⟩

/-! ### C10 — the surfaced flag and the weapon entry points -/

theorem is_valid_position_setSub (g : Game) (t : Team) (s : Submarine)
    (row col : Int) :
    is_valid_position (setSub g t s) row col = is_valid_position g row col := by
  simp only [is_valid_position, setSub_map]

set_option maxRecDepth 40000 in
set_option maxHeartbeats 3200000 in
/-- C10: none of torpedo fire, mine placement, sonar activation or drone
launch ever reads the `surfaced` flag of the acting team (flipping it never
changes acceptance); and since a successful surface sets `moved`, the
replayed game `gSurf` — reached from `make_game` by placement, six full
turns per side and a surface — is a state in which the surfaced blue
team successfully fires its fully-charged torpedo in the very turn it
surfaced, while movement and mine detonation are rejected while
surfaced. -/
theorem C10_surfaced_not_checked_by_weapons :
    (∀ (g : Game) (team : Team) (tr tc : Int) (b : Bool),
      (captain_fire_torpedo (setSurfaced g team b) team tr tc).ok
        = (captain_fire_torpedo g team tr tc).ok) ∧
    (∀ (g : Game) (team : Team) (tr tc : Int) (b : Bool),
      (captain_place_mine (setSurfaced g team b) team tr tc).ok
        = (captain_place_mine g team tr tc).ok) ∧
    (∀ (g : Game) (team : Team) (b : Bool),
      (captain_use_sonar (setSurfaced g team b) team).ok
        = (captain_use_sonar g team).ok) ∧
    (∀ (g : Game) (team : Team) (sector : Int) (b : Bool),
      (captain_use_drone (setSurfaced g team b) team sector).ok
        = (captain_use_drone g team sector).ok) ∧
    gSurf.blue_sub.surfaced = true ∧
    gSurf.turn_state.moved = true ∧
    (captain_fire_torpedo gSurf .blue 6 8).ok = true ∧
    (captain_move gSurf .blue .north).ok = false ∧
    (captain_detonate_mine gSurf .blue 0).ok = false := by
  refine ⟨?_, ?_, ?_, ?_, by decide, by decide, by decide, by decide, by decide⟩
  · intro g team tr tc b
    simp only [captain_fire_torpedo, setSurfaced, current_team, setSub_active,
      setSub_phase, setSub_turn_state, getSub_setSub_self,
      is_valid_position_setSub, check_charge, posOf]
    split_ifs <;> rfl
  · intro g team tr tc b
    simp only [captain_place_mine, setSurfaced, current_team, setSub_active,
      setSub_phase, setSub_turn_state, getSub_setSub_self,
      is_valid_position_setSub, check_charge, posOf]
    split_ifs <;> rfl
  · intro g team b
    simp only [captain_use_sonar, setSurfaced, current_team, setSub_active,
      setSub_phase, setSub_turn_state, getSub_setSub_self, check_charge]
    split_ifs <;> rfl
  · intro g team sector b
    simp only [captain_use_drone, setSurfaced, current_team, setSub_active,
      setSub_phase, setSub_turn_state, getSub_setSub_self, check_charge]
    split_ifs <;> rfl

end CaptainSonar
